import Mathlib

set_option maxRecDepth 1000000
set_option maxHeartbeats 2000000

/-!
Verification development for the mcp-blog-server repository.

The Python sources embedded here are `server.py` (business-rule validators,
outline builder, tool dispatch) and `blog_generator.py` (the enhanced content
synthesizer).  Strings are modelled as Lean `String`s; the regex-based
counters of `validate_content_structure` are modelled as executable scanners
over `List Char` that follow Python `re.findall` semantics (leftmost,
non-overlapping, lazy quantifiers where the pattern uses them).
-/

namespace BlogServer

/-- The backquote character, written numerically. -/
def bq : Char := Char.ofNat 96

/-- The apostrophe character, written numerically. -/
def apos : String := String.singleton (Char.ofNat 39)

/-! ## Counting code-fence markers

`len(re.findall(r'<three backquotes>', content))`: the number of leftmost,
non-overlapping occurrences of three consecutive backquotes. -/

/-- Count leftmost non-overlapping occurrences of three consecutive
backquotes, exactly as `re.findall` does for that pattern. -/
def countTriple : List Char → Nat
  | [] => 0
  | [_] => 0
  | [_, _] => 0
  | c :: d :: e :: rest =>
    if c = bq ∧ d = bq ∧ e = bq then countTriple rest + 1
    else countTriple (d :: e :: rest)

/-! ## Counting level-2 headings

`len(re.findall(r'^## ', content, re.MULTILINE))`: the number of positions
that begin a line (offset 0 or just after a newline) and start with
"## ".  Such matches can never overlap, so this equals the number of
matching positions. -/

/-- Does the list start with the three characters of "## "? -/
def startsH2 : List Char → Bool
  | c :: d :: e :: _ => c = '#' && d = '#' && e = ' '
  | _ => false

/-- Count the line-start positions at which "## " occurs.  The boolean
state records whether the current position is at a line start. -/
def countH2From : Bool → List Char → Nat
  | _, [] => 0
  | st, c :: cs =>
    (if st ∧ startsH2 (c :: cs) then 1 else 0) + countH2From (c = '\n') cs

/-- Line-start state after scanning a list, starting from state `st`. -/
def stAfter (l : List Char) (st : Bool) : Bool :=
  l.foldl (fun _ c => c = '\n') st

/-- Main-section count of a string: matches of `^## ` in MULTILINE mode,
where offset 0 counts as a line start. -/
def mainSections (s : String) : Nat := countH2From true s.data

/-! ## Counting markdown links

`len(re.findall(r'\[.*?\]\(https?://.*?\)', content))` with `.` not
matching newline.  The scan below reproduces the leftmost, non-overlapping
behaviour with lazy quantifiers: at a `[`, the first (shortest) position
where `](http://` or `](https://` follows and a `)` occurs before the next
newline completes the match at that first `)`. -/

/-- Drop an expected exact prefix, returning the remainder on success. -/
def dropExact : List Char → List Char → Option (List Char)
  | [], l => some l
  | _ :: _, [] => none
  | p :: ps, c :: cs => if c = p then dropExact ps cs else none

/-- Scan for the lazily-first `)` before any newline (the `.*?\)` tail of
the link pattern); return the remainder after it. -/
def scanClose : List Char → Option (List Char)
  | [] => none
  | c :: cs => if c = ')' then some cs else if c = '\n' then none else scanClose cs

/-- At the current position, try to match `](https?://` (the `s?` is
greedy, so `https` is tried first) followed by the lazy close scan. -/
def checkScheme (l : List Char) : Option (List Char) :=
  match dropExact "](https://".data l with
  | some r => scanClose r
  | none =>
    match dropExact "](http://".data l with
    | some r => scanClose r
    | none => none

/-- Grow the lazy `.*?` after `[` one character at a time (it may not
cross a newline), looking for the first position where the rest of the
link pattern matches. -/
def scanBody : List Char → Option (List Char)
  | [] => none
  | c :: cs =>
    match checkScheme (c :: cs) with
    | some r => some r
    | none => if c = '\n' then none else scanBody cs

theorem dropExact_length {p l r : List Char} (h : dropExact p l = some r) :
    r.length + p.length = l.length := by
  induction p generalizing l with
  | nil => simp [dropExact] at h; simp [h]
  | cons q ps ih =>
    cases l with
    | nil => simp [dropExact] at h
    | cons c cs =>
      by_cases hc : c = q
      · simp [dropExact, hc] at h
        have := ih h
        simp [List.length_cons]
        omega
      · simp [dropExact, hc] at h

theorem scanClose_length {l r : List Char} (h : scanClose l = some r) :
    r.length < l.length := by
  induction l with
  | nil => simp [scanClose] at h
  | cons c cs ih =>
    by_cases hc : c = ')'
    · simp [scanClose, hc] at h; simp [h]
    · by_cases hn : c = '\n'
      · simp [scanClose, hc, hn] at h
      · simp [scanClose, hc, hn] at h
        exact Nat.lt_trans (ih h) (by simp)

theorem checkScheme_length {l r : List Char} (h : checkScheme l = some r) :
    r.length < l.length := by
  unfold checkScheme at h
  cases h1 : dropExact "](https://".data l with
  | some r1 =>
    rw [h1] at h
    have e1 := dropExact_length h1
    have e2 := scanClose_length h
    omega
  | none =>
    rw [h1] at h
    cases h2 : dropExact "](http://".data l with
    | some r2 =>
      rw [h2] at h
      have e1 := dropExact_length h2
      have e2 := scanClose_length h
      omega
    | none => rw [h2] at h; exact absurd h (by simp)

theorem scanBody_length {l r : List Char} (h : scanBody l = some r) :
    r.length < l.length := by
  induction l with
  | nil => simp [scanBody] at h
  | cons c cs ih =>
    unfold scanBody at h
    cases hs : checkScheme (c :: cs) with
    | some r1 =>
      rw [hs] at h
      cases h
      exact checkScheme_length hs
    | none =>
      rw [hs] at h
      by_cases hn : c = '\n'
      · simp [hn] at h
      · simp [hn] at h
        exact Nat.lt_trans (ih h) (by simp)

/-- Fuel-bounded link-count scan (structural recursion on the fuel; any
fuel at least the list length gives the true count, see
`countLinksFuel_eq`). -/
def countLinksFuel : Nat → List Char → Nat
  | 0, _ => 0
  | _ + 1, [] => 0
  | fuel + 1, c :: cs =>
    if c = '[' then
      match scanBody cs with
      | some rem => 1 + countLinksFuel fuel rem
      | none => countLinksFuel fuel cs
    else countLinksFuel fuel cs

/-- Fuel-insensitivity: any fuel at least the list length computes the
same value. -/
theorem countLinksFuel_eq {f₁ f₂ : Nat} {l : List Char}
    (h₁ : l.length ≤ f₁) (h₂ : l.length ≤ f₂) :
    countLinksFuel f₁ l = countLinksFuel f₂ l := by
  induction f₁ generalizing f₂ l with
  | zero =>
    have : l = [] := List.length_eq_zero.mp (Nat.le_zero.mp h₁)
    subst this
    cases f₂ <;> simp [countLinksFuel]
  | succ f ih =>
    cases l with
    | nil => cases f₂ <;> simp [countLinksFuel]
    | cons c cs =>
      cases f₂ with
      | zero => simp at h₂
      | succ f' =>
        simp only [countLinksFuel]
        simp only [List.length_cons, Nat.succ_le_succ_iff] at h₁ h₂
        by_cases hc : c = '['
        · simp only [hc, if_pos rfl]
          cases hs : scanBody cs with
          | some rem =>
            have hr := scanBody_length hs
            exact congrArg (1 + ·) (ih (by omega) (by omega))
          | none => exact ih h₁ h₂
        · rw [if_neg hc, if_neg hc]
          exact ih h₁ h₂

/-- Count leftmost non-overlapping matches of the markdown-link pattern
`\[.*?\]\(https?://.*?\)`, as `re.findall` does. -/
def countLinks (l : List Char) : Nat := countLinksFuel l.length l

/-- Unfolding rule for `countLinks` on a cons cell. -/
theorem countLinks_cons (c : Char) (cs : List Char) :
    countLinks (c :: cs) =
      if c = '[' then
        match scanBody cs with
        | some rem => 1 + countLinks rem
        | none => countLinks cs
      else countLinks cs := by
  show countLinksFuel (cs.length + 1) (c :: cs) = _
  simp only [countLinksFuel]
  by_cases hc : c = '['
  · simp only [hc, if_pos rfl]
    cases hs : scanBody cs with
    | some rem =>
      have hr := scanBody_length hs
      exact congrArg (1 + ·) (countLinksFuel_eq (by omega) (by omega))
    | none => rfl
  · rw [if_neg hc, if_neg hc]
    rfl

/-- External-link count of a string. -/
def externalLinks (s : String) : Nat := countLinks s.data

/-! ## Whitespace tokenisation

Python `str.split()` with no argument: the number of maximal runs of
non-whitespace characters. -/

/-- Count whitespace-separated tokens; the boolean state records whether
the scan is currently inside a token, `acc` the tokens seen so far. -/
def countTokensFrom : Bool → Nat → List Char → Nat
  | _, acc, [] => acc
  | inTok, acc, c :: cs =>
    if c.isWhitespace then countTokensFrom false acc cs
    else countTokensFrom true (if inTok then acc else acc + 1) cs

/-- Word count of a string, i.e. `len(s.split())`. -/
def pyWords (s : String) : Nat := countTokensFrom false 0 s.data

/-! ## Small Python string helpers used by the sources. -/

/-- Python `str.lower()` (ASCII-faithful). -/
def pyLower (s : String) : String := String.mk (s.data.map Char.toLower)

/-- Substring test over character lists (Python `needle in haystack`). -/
def isSub (needle haystack : List Char) : Bool :=
  match haystack with
  | [] => needle.isEmpty
  | _ :: cs => needle.isPrefixOf haystack || isSub needle cs

/-- Python `', '.join(l)`. -/
def joinComma : List String → String
  | [] => ""
  | [s] => s
  | s :: rest => s ++ ", " ++ joinComma rest

/-! ## BlogBusinessRules (`server.py`, class `BlogBusinessRules`)

Each validator returns a dict `{"valid", "errors", "warnings", ...}`;
these are modelled as structures extending a common `Check` base. -/

/-- Common part of every field-validation result. -/
structure Check where
  valid : Bool
  errors : List String
  warnings : List String
deriving Repr, DecidableEq

/-- Result of `validate_title` (adds the measured `length`). -/
structure TitleCheck extends Check where
  length : Nat
deriving Repr, DecidableEq

/-- Result of `validate_introduction` / `validate_conclusion`
(adds `word_count`). -/
structure WordCheck extends Check where
  word_count : Nat
deriving Repr, DecidableEq

/-- Result of `validate_content_structure` (adds `main_sections` and
`external_links`). -/
structure StructCheck extends Check where
  main_sections : Nat
  external_links : Nat
deriving Repr, DecidableEq

/-- `BlogBusinessRules.validate_title`. -/
def validate_title (title : String) : TitleCheck :=
  let errors : List String :=
    if title.length < 40 then
      ["Title too short: " ++ toString title.length ++ " characters (minimum 40)"]
    else if title.length > 80 then
      ["Title too long: " ++ toString title.length ++ " characters (maximum 80)"]
    else []
  let warnings : List String :=
    if title.data.any (fun c => c == '?' || c == ':') then []
    else ["Title should ideally pose a question or clearly state the problem/solution"]
  { valid := errors.length == 0, errors := errors, warnings := warnings,
    length := title.length }

/-- `BlogBusinessRules.validate_introduction`. -/
def validate_introduction (intro : String) : WordCheck :=
  let word_count := pyWords intro
  let errors : List String :=
    if word_count < 150 then
      ["Introduction too short: " ++ toString word_count ++ " words (minimum 150)"]
    else if word_count > 300 then
      ["Introduction too long: " ++ toString word_count ++ " words (maximum 300)"]
    else []
  { valid := errors.length == 0, errors := errors, warnings := [],
    word_count := word_count }

/-- `BlogBusinessRules.validate_conclusion`. -/
def validate_conclusion (conclusion : String) : WordCheck :=
  let word_count := pyWords conclusion
  let errors : List String :=
    if word_count < 100 then
      ["Conclusion too short: " ++ toString word_count ++ " words (minimum 100)"]
    else if word_count > 200 then
      ["Conclusion too long: " ++ toString word_count ++ " words (maximum 200)"]
    else []
  { valid := errors.length == 0, errors := errors, warnings := [],
    word_count := word_count }

/-- `BlogBusinessRules.validate_content_structure`. -/
def validate_content_structure (content : String) : StructCheck :=
  let main_sections := mainSections content
  let code_blocks := countTriple content.data
  let external_links := externalLinks content
  let errors : List String :=
    (if main_sections < 3 then
      ["Insufficient main sections: " ++ toString main_sections ++ " (minimum 3)"]
     else []) ++
    (if code_blocks % 2 ≠ 0 then ["Unclosed code block detected"] else [])
  let warnings : List String :=
    if external_links < 3 then
      ["Few external links: " ++ toString external_links ++ " (recommended minimum 3)"]
    else []
  { valid := errors.length == 0, errors := errors, warnings := warnings,
    main_sections := main_sections, external_links := external_links }

/-! ## BlogGenerator.validate_blog_post (`server.py`)

The input is a dict in which each of the four checked fields may be
absent; this is modelled by `Option String` fields. -/

/-- A (partial) blog post as passed to `validate_blog_post`: each key may
be absent from the dict. -/
structure BlogPostInput where
  title : Option String
  introduction : Option String
  conclusion : Option String
  content : Option String
deriving Repr, DecidableEq

/-- The aggregated validation report (`validation_results`): the four
possible entries of `validations`, the `summary` counters and
`overall_valid`. -/
structure ValidationReport where
  overall_valid : Bool
  title_check : Option TitleCheck
  introduction_check : Option WordCheck
  conclusion_check : Option WordCheck
  structure_check : Option StructCheck
  total_errors : Nat
  total_warnings : Nat
deriving Repr, DecidableEq

/-- Contribution of an optional check to `overall_valid`: a skipped check
leaves the accumulator unchanged. -/
def optValid (o : Option Check) : Bool :=
  match o with
  | none => true
  | some c => c.valid

/-- Contribution of an optional check to `summary.total_errors`. -/
def optErrs (o : Option Check) : Nat :=
  match o with
  | none => 0
  | some c => c.errors.length

/-- Contribution of an optional check to `summary.total_warnings`. -/
def optWarns (o : Option Check) : Nat :=
  match o with
  | none => 0
  | some c => c.warnings.length

/-- `BlogGenerator.validate_blog_post`: runs each of the four checks
exactly when the corresponding key is present, ands the `valid` flags
into `overall_valid` and sums error/warning counts into the summary. -/
def validate_blog_post (post : BlogPostInput) : ValidationReport :=
  let tv := post.title.map validate_title
  let iv := post.introduction.map validate_introduction
  let cv := post.conclusion.map validate_conclusion
  let sv := post.content.map validate_content_structure
  let tc := tv.map TitleCheck.toCheck
  let ic := iv.map WordCheck.toCheck
  let cc := cv.map WordCheck.toCheck
  let sc := sv.map StructCheck.toCheck
  { overall_valid := optValid tc && optValid ic && optValid cc && optValid sc,
    title_check := tv,
    introduction_check := iv,
    conclusion_check := cv,
    structure_check := sv,
    total_errors := optErrs tc + optErrs ic + optErrs cc + optErrs sc,
    total_warnings := optWarns tc + optWarns ic + optWarns cc + optWarns sc }

/-- The procedure reads its argument and never writes to it; the embedding
of the call therefore returns the input dict unchanged next to the
report. -/
def validate_blog_post_call (post : BlogPostInput) : ValidationReport × BlogPostInput :=
  (validate_blog_post post, post)

/-! ## BlogGenerator.generate_blog_outline and the outline tool
(`server.py`, `handle_call_tool` branch `generate_blog_outline`). -/

/-- An outline section dict. -/
structure OutlineSection where
  title : String
  description : String
  estimated_words : Nat
deriving Repr, DecidableEq

/-- The outline dict returned by `generate_blog_outline`.  `generated_at`
carries the caller-supplied timestamp. -/
structure Outline where
  topic : String
  target_audience : String
  keywords : List String
  title_suggestions : List String
  sections : List OutlineSection
  estimated_total_words : Nat
  generated_at : String
deriving Repr, DecidableEq

/-- `BlogGenerator.generate_blog_outline`; `now` stands for
`datetime.now().isoformat()`. -/
def generate_blog_outline (topic : String) (target_audience : String)
    (keywords : List String) (now : String) : Outline :=
  let title_templates : List String :=
    [ "A Complete Guide to " ++ topic,
      "Understanding " ++ topic ++ ": Best Practices and Implementation",
      "How to Master " ++ topic ++ ": A Developer" ++ apos ++ "s Guide",
      topic ++ " Explained: From Basics to Advanced Concepts",
      "Building with " ++ topic ++ ": Practical Examples and Use Cases" ]
  let sections : List OutlineSection :=
    [ ⟨"Introduction",
        "Overview of " ++ topic ++ " and its importance in modern development", 200⟩,
      ⟨"Core Concepts",
        "Fundamental principles and concepts of " ++ topic, 400⟩,
      ⟨"Implementation Guide",
        "Step-by-step implementation of " ++ topic ++ " with examples", 600⟩,
      ⟨"Best Practices",
        "Industry best practices and common pitfalls to avoid", 300⟩,
      ⟨"Real-world Examples",
        "Practical use cases and examples of " ++ topic ++ " in action", 400⟩,
      ⟨"Conclusion",
        "Summary and next steps for learning more about " ++ topic, 150⟩ ]
  { topic := topic,
    target_audience := target_audience,
    keywords := keywords,
    title_suggestions := title_templates,
    sections := sections,
    estimated_total_words := (sections.map (·.estimated_words)).sum,
    generated_at := now }

/-- The two sections appended for `desired_length == "long"`. -/
def longExtraSections (topic : String) : List OutlineSection :=
  [ ⟨"Advanced Techniques",
      "Advanced techniques and patterns for " ++ topic, 500⟩,
    ⟨"Performance Considerations",
      "Performance optimization strategies for " ++ topic, 300⟩ ]

/-- The `generate_blog_outline` branch of `handle_call_tool`: empty topic
(the default for a missing argument) is rejected; otherwise the outline is
built, trimmed or extended by `desired_length`, and the total recomputed. -/
def generate_blog_outline_tool (topic target_audience : String)
    (keywords : List String) (desired_length : String) (now : String) :
    Except String Outline :=
  if topic = "" then
    Except.error "Error: Topic is required for blog outline generation"
  else
    let outline := generate_blog_outline topic target_audience keywords now
    let adjusted : List OutlineSection :=
      if desired_length = "short" then outline.sections.take 4
      else if desired_length = "long" then outline.sections ++ longExtraSections topic
      else outline.sections
    Except.ok { outline with
      sections := adjusted,
      estimated_total_words := (adjusted.map (·.estimated_words)).sum }

/-! ## More Python string helpers used by `blog_generator.py`. -/

/-- Python `str.title()` (ASCII-faithful): first letter of each
alphabetic run uppercased, the rest lowercased. -/
def pyTitleAux : Bool → List Char → List Char
  | _, [] => []
  | prev, c :: cs =>
    if c.isAlpha then (if prev then c.toLower else c.toUpper) :: pyTitleAux true cs
    else c :: pyTitleAux false cs

/-- Python `str.title()`. -/
def pyTitleCase (s : String) : String := String.mk (pyTitleAux false s.data)

/-- Characters before the first `:` (that is, `s.split(':')[0]`). -/
def beforeColonAux : List Char → List Char
  | [] => []
  | c :: cs => if c = ':' then [] else c :: beforeColonAux cs

/-- Python `s.split(':')[0]`. -/
def beforeColon (s : String) : String := String.mk (beforeColonAux s.data)

/-- Characters after the first `:` (that is, `s.split(':', 1)[1]`; every
call site in the source contains a colon, so the missing-colon case is
immaterial and yields the empty remainder). -/
def afterColonAux : List Char → List Char
  | [] => []
  | c :: cs => if c = ':' then cs else afterColonAux cs

/-- Python `s.split(':', 1)[1]`. -/
def afterColonOnce (s : String) : String := String.mk (afterColonAux s.data)

/-- Remove leftmost non-overlapping occurrences of `**`
(Python `s.replace('**', '')`). -/
def removeStarsAux : List Char → List Char
  | [] => []
  | [c] => [c]
  | c :: d :: rest =>
    if c = '*' ∧ d = '*' then removeStarsAux rest else c :: removeStarsAux (d :: rest)

/-- Python `s.replace('**', '')`. -/
def removeStarsS (s : String) : String := String.mk (removeStarsAux s.data)

/-- Drop leading whitespace characters. -/
def dropWS : List Char → List Char
  | [] => []
  | c :: cs => if c.isWhitespace then dropWS cs else c :: cs

/-- Python `s.strip()`. -/
def pyStrip (s : String) : String :=
  String.mk ((dropWS ((dropWS s.data).reverse)).reverse)

/-- Concatenation of a list of strings (a `for`-loop of `content += x`). -/
def strConcat : List String → String
  | [] => ""
  | s :: rest => s ++ strConcat rest

/-- Model of `random.choice(l)`: the chosen index is an arbitrary natural
number taken modulo the (always non-empty, concrete) list length, so that
quantifying over the index covers every possible choice. -/
def pick (l : List String) (n : Nat) : String := l.getD (n % l.length) ""

/-! ## EnhancedBlogGenerator (`blog_generator.py`)

The five `random.choice` calls made during one `generate_complete_blog_post`
run are modelled by five index fields. -/

/-- The random choices consumed by one generation run. -/
structure Rand where
  titleChoice : Nat
  introChoice : Nat
  hookChoice : Nat
  conclChoice : Nat
  ctaChoice : Nat

/-- `title_patterns` of `_generate_title`. -/
def titlePatterns (topic audience : String) : List String :=
  [ "The Complete Guide to " ++ topic ++ ": Best Practices for " ++
      pyTitleCase audience ++ " Developers",
    "Mastering " ++ topic ++ ": A Comprehensive " ++ pyTitleCase audience ++
      "-Level Tutorial",
    "Understanding " ++ topic ++ ": From Basics to Advanced Implementation",
    "How to Implement " ++ topic ++ ": A Step-by-Step Guide for " ++
      pyTitleCase audience ++ " Users",
    topic ++ " Explained: Essential Concepts and Practical Examples",
    "Building with " ++ topic ++ ": Modern Approaches and Best Practices",
    "The Developer" ++ apos ++ "s Guide to " ++ topic ++
      ": Tips, Tricks, and Real-World Applications" ]

/-- `_generate_title`. -/
def generate_title (topic : String) (keywords : List String) (audience : String)
    (c : Nat) : String :=
  let base_title := pick (titlePatterns topic audience) c
  if base_title.length < 50 ∧ keywords ≠ [] then
    let keyword_addition := " - " ++ joinComma (keywords.take 2)
    if (base_title ++ keyword_addition).length ≤ 80 then base_title ++ keyword_addition
    else base_title
  else base_title

/-- `audience_contexts` lookup of `_generate_introduction` (with its
default for unrecognised audiences). -/
def audienceContextIntro (audience : String) : String :=
  if audience = "beginner" then
    "newcomers to the field and those just starting their development journey"
  else if audience = "intermediate" then
    "developers with some experience looking to deepen their understanding"
  else if audience = "advanced" then
    "experienced professionals seeking to master advanced concepts"
  else "developers at all levels"

/-- `content_templates["introduction"]`, already `.format`ted. -/
def introTemplates (topic ctx : String) : List String :=
  [ "In today" ++ apos ++ "s rapidly evolving technology landscape, " ++ topic ++
      " has emerged as a critical component for " ++ ctx ++
      ". This comprehensive guide will explore the fundamental concepts, practical implementations, and best practices that will help you master " ++
      topic ++ " and leverage its full potential in your projects.",
    "Understanding " ++ topic ++
      " is essential for modern developers who want to stay competitive in the tech industry. Whether you" ++
      apos ++ "re " ++ ctx ++
      ", this article will provide you with the knowledge and practical insights needed to effectively implement " ++
      topic ++ " in your work.",
    "As technology continues to advance, " ++ topic ++
      " has become increasingly important for " ++ ctx ++
      ". In this detailed exploration, we" ++ apos ++
      "ll dive deep into the core concepts, examine real-world applications, and provide you with actionable strategies for implementing " ++
      topic ++ " successfully." ]

/-- `hook_sentences` of `_generate_introduction`. -/
def hookSentences (topic : String) : List String :=
  [ " Did you know that proper implementation of " ++ topic ++
      " can significantly improve your application" ++ apos ++
      "s performance and maintainability?",
    " Recent industry surveys show that " ++ topic ++
      " skills are among the most sought-after in today" ++ apos ++ "s job market.",
    " Many developers struggle with " ++ topic ++
      " implementation, but with the right approach, it becomes much more manageable." ]

/-- `_generate_introduction`. -/
def generate_introduction (topic audience : String) (keywords : List String)
    (tc hc : Nat) : String :=
  let audience_context := audienceContextIntro audience
  let introduction := pick (introTemplates topic audience_context) tc
  let withKw :=
    if keywords ≠ [] then
      introduction ++ (" Key areas we" ++ apos ++ "ll cover include " ++
        joinComma (keywords.take 3) ++
        ", ensuring you gain practical knowledge that can be immediately applied to your projects.")
    else introduction
  withKw ++ pick (hookSentences topic) hc

/-- `_classify_section_type`. -/
def classify_section_type (title : String) : String :=
  let title_lower := pyLower title
  if ["concept", "fundamental", "basic", "theory"].any
      (fun k => isSub k.data title_lower.data) then "core_concepts"
  else if ["implementation", "guide", "how to", "step"].any
      (fun k => isSub k.data title_lower.data) then "implementation"
  else if ["best practice", "tips", "recommendation"].any
      (fun k => isSub k.data title_lower.data) then "best_practices"
  else if ["example", "case study", "real-world", "practical"].any
      (fun k => isSub k.data title_lower.data) then "examples"
  else if ["advanced", "expert", "complex"].any
      (fun k => isSub k.data title_lower.data) then "advanced_techniques"
  else if ["performance", "optimization", "speed"].any
      (fun k => isSub k.data title_lower.data) then "performance"
  else "generic"

/-- `concepts` of `_generate_core_concepts_section`. -/
def coreConcepts (topic : String) : List String :=
  [ "**Architecture and Design Patterns**: " ++ topic ++
      " follows specific architectural patterns that promote scalability and maintainability. Understanding these patterns is crucial for building robust applications.",
    "**Key Components**: The main components of " ++ topic ++
      " work together to provide a comprehensive solution. Each component has specific responsibilities and interfaces.",
    "**Data Flow and Processing**: How data moves through " ++ topic ++
      " systems affects performance and reliability. Understanding this flow helps optimize your implementations.",
    "**Integration Points**: " ++ topic ++
      " typically integrates with other systems and technologies. Knowing these integration patterns is essential for real-world applications." ]

/-- `_generate_core_concepts_section`. -/
def generate_core_concepts_section (topic title audience : String)
    (keywords : List String) : String :=
  "## " ++ title ++ "\n\n" ++
  ("To effectively work with " ++ topic ++ ", it" ++ apos ++
    "s essential to understand the fundamental concepts that form its foundation. ") ++
  "These core principles will guide your implementation decisions and help you avoid common pitfalls.\n\n" ++
  strConcat ((coreConcepts topic).map (fun concept => concept ++ "\n\n")) ++
  ("When working with " ++ topic ++
    ", consider how these concepts apply to your specific use case. ") ++
  ("The " ++ audience ++
    "-level approach focuses on practical application while maintaining theoretical understanding.\n\n") ++
  (if keywords ≠ [] then
    "Key areas to focus on include " ++ joinComma (keywords.take 3) ++
      ", which represent the most important aspects for practical implementation.\n\n"
   else "")

/-- `steps` of `_generate_implementation_section`. -/
def implSteps : List String :=
  [ "**Environment Setup**: Prepare your development environment with the necessary tools and dependencies.",
    "**Initial Configuration**: Configure the basic settings and parameters for your implementation.",
    "**Core Implementation**: Build the main functionality following established patterns and best practices.",
    "**Testing and Validation**: Implement comprehensive testing to ensure your solution works correctly.",
    "**Optimization and Refinement**: Fine-tune your implementation for performance and reliability." ]

/-- One iteration of the step loop of `_generate_implementation_section`. -/
def implStepBlock (topic : String) (i : Nat) (step : String) : String :=
  ("### Step " ++ toString i ++ ": " ++ removeStarsS (beforeColon step) ++ "\n\n") ++
  (pyStrip (afterColonOnce step) ++ "\n\n") ++
  "```python\n" ++
  ("# Example code for " ++ pyLower (removeStarsS (beforeColon step)) ++ "\n") ++
  ("# This demonstrates the implementation of " ++ topic ++ "\n") ++
  "# Replace with actual implementation code\n" ++
  "```\n\n"

/-- `challenges` of `_generate_implementation_section`. -/
def implChallenges : List String :=
  [ "**Configuration Issues**: Ensure all configuration parameters are correctly set and validated.",
    "**Performance Bottlenecks**: Monitor performance metrics and optimize critical paths.",
    "**Integration Problems**: Verify compatibility with existing systems and dependencies." ]

/-- `_generate_implementation_section`. -/
def generate_implementation_section (topic title : String) : String :=
  "## " ++ title ++ "\n\n" ++
  ("Implementing " ++ topic ++
    " requires a systematic approach that ensures both functionality and maintainability. ") ++
  "This section provides step-by-step guidance for successful implementation.\n\n" ++
  strConcat ((List.enumFrom 1 implSteps).map
    (fun p => implStepBlock topic p.1 p.2)) ++
  "### Common Implementation Challenges\n\n" ++
  ("When implementing " ++ topic ++
    ", you may encounter several common challenges. ") ++
  "Here are the most frequent issues and their solutions:\n\n" ++
  strConcat (implChallenges.map (fun challenge => "- " ++ challenge ++ "\n")) ++
  "\n"

/-- `categories` of `_generate_best_practices_section`. -/
def bestPracticeCategories : List (String × List String) :=
  [ ("Code Organization and Structure",
     [ "Maintain clear separation of concerns",
       "Use consistent naming conventions",
       "Implement proper error handling",
       "Document your code thoroughly" ]),
    ("Performance and Optimization",
     [ "Profile your application regularly",
       "Optimize critical code paths",
       "Use appropriate caching strategies",
       "Monitor resource usage" ]),
    ("Security and Reliability",
     [ "Validate all input data",
       "Implement proper authentication",
       "Use secure communication protocols",
       "Plan for failure scenarios" ]) ]

/-- One iteration of the category loop of `_generate_best_practices_section`. -/
def bestPracticeBlock (topic : String) (cat : String × List String) : String :=
  ("### " ++ cat.1 ++ "\n\n") ++
  strConcat (cat.2.map (fun practice =>
    "- **" ++ practice ++ "**: This ensures your " ++ topic ++
      " implementation remains robust and maintainable.\n")) ++
  "\n"

/-- `_generate_best_practices_section`. -/
def generate_best_practices_section (topic title : String) : String :=
  "## " ++ title ++ "\n\n" ++
  ("Following established best practices is crucial for successful " ++ topic ++
    " implementation. ") ++
  "These guidelines have been developed through industry experience and help ensure reliable, maintainable solutions.\n\n" ++
  strConcat (bestPracticeCategories.map (bestPracticeBlock topic)) ++
  "### Industry Insights\n\n" ++
  ("Leading organizations have identified several key factors for successful " ++
    topic ++ " adoption:\n\n") ++
  ("1. **Team Training**: Ensure your team understands " ++ topic ++
    " concepts and best practices.\n") ++
  "2. **Gradual Implementation**: Start with small, manageable projects before scaling up.\n" ++
  "3. **Continuous Monitoring**: Implement monitoring and alerting for production systems.\n" ++
  ("4. **Regular Updates**: Stay current with " ++ topic ++
    " updates and security patches.\n\n")

/-- `examples` of `_generate_examples_section`:
(title, description, use_case) triples. -/
def exampleScenarios (topic : String) : List (String × String × String) :=
  [ ("E-commerce Platform Integration",
     "This example shows how " ++ topic ++
       " can be integrated into an e-commerce platform to improve user experience and system performance.",
     "Online retail with high traffic volumes"),
    ("Data Processing Pipeline",
     "Learn how " ++ topic ++
       " can be used to build efficient data processing pipelines for analytics and reporting.",
     "Big data analytics and business intelligence"),
    ("Mobile Application Backend",
     "Discover how " ++ topic ++
       " powers mobile application backends, providing scalable and responsive services.",
     "Mobile app development and API services") ]

/-- One iteration of the example loop of `_generate_examples_section`. -/
def exampleBlock (topic : String) (ex : String × String × String) : String :=
  ("### " ++ ex.1 ++ "\n\n") ++
  (ex.2.1 ++ "\n\n") ++
  ("**Use Case**: " ++ ex.2.2 ++ "\n\n") ++
  "```python\n" ++
  ("# " ++ ex.1 ++ " implementation\n") ++
  ("# This example demonstrates " ++ topic ++ " in " ++ pyLower ex.2.2 ++ "\n\n") ++
  "class ExampleImplementation:\n" ++
  "    def __init__(self):\n" ++
  ("        # Initialize " ++ topic ++ " components\n") ++
  "        pass\n\n" ++
  "    def process(self, data):\n" ++
  ("        # Process data using " ++ topic ++ "\n") ++
  "        return processed_data\n" ++
  "```\n\n" ++
  "**Key Takeaways**:\n" ++
  ("- Demonstrates practical " ++ topic ++ " implementation\n") ++
  "- Shows integration with existing systems\n" ++
  "- Highlights performance considerations\n\n"

/-- `_generate_examples_section`. -/
def generate_examples_section (topic title : String) : String :=
  "## " ++ title ++ "\n\n" ++
  ("Real-world examples demonstrate how " ++ topic ++
    " can be applied in practical scenarios. ") ++
  "These examples showcase different use cases and implementation approaches.\n\n" ++
  strConcat ((exampleScenarios topic).map (exampleBlock topic))

/-- `advanced_topics` of `_generate_advanced_section`. -/
def advancedTopicsList (topic : String) : List (String × String) :=
  [ ("Custom Extensions and Plugins",
     "Learn how to extend " ++ topic ++
       " functionality through custom plugins and extensions."),
    ("Performance Optimization Strategies",
     "Advanced techniques for optimizing " ++ topic ++
       " performance in high-load scenarios."),
    ("Integration Patterns",
     "Sophisticated patterns for integrating " ++ topic ++
       " with complex system architectures.") ]

/-- One iteration of the topic loop of `_generate_advanced_section`. -/
def advancedBlock (topic : String) (it : String × String) : String :=
  ("### " ++ it.1 ++ "\n\n") ++
  (it.2 ++ "\n\n") ++
  "**Technical Implementation**:\n\n" ++
  "```python\n" ++
  ("# Advanced " ++ topic ++ " implementation\n") ++
  "# This demonstrates sophisticated techniques\n\n" ++
  "from advanced_patterns import OptimizedProcessor\n\n" ++
  "class AdvancedImplementation(OptimizedProcessor):\n" ++
  "    def __init__(self, config):\n" ++
  "        super().__init__(config)\n" ++
  "        self.setup_advanced_features()\n\n" ++
  "    def setup_advanced_features(self):\n" ++
  "        # Configure advanced features\n" ++
  "        pass\n" ++
  "```\n\n"

/-- `_generate_advanced_section`. -/
def generate_advanced_section (topic title : String) : String :=
  "## " ++ title ++ "\n\n" ++
  ("Advanced " ++ topic ++
    " techniques enable sophisticated implementations that can handle complex requirements and scale effectively. ") ++
  "These techniques are particularly valuable for experienced developers working on demanding projects.\n\n" ++
  strConcat ((advancedTopicsList topic).map (advancedBlock topic)) ++
  "### Considerations for Advanced Usage\n\n" ++
  ("When implementing advanced " ++ topic ++
    " techniques, consider the following:\n\n") ++
  "- **Complexity Management**: Balance advanced features with maintainability\n" ++
  "- **Performance Impact**: Monitor the performance implications of advanced techniques\n" ++
  "- **Team Expertise**: Ensure your team has the necessary skills for advanced implementations\n" ++
  "- **Documentation**: Thoroughly document advanced implementations for future maintenance\n\n"

/-- `performance_areas` of `_generate_performance_section`:
(title, description, techniques) triples. -/
def performanceAreas (topic : String) : List (String × String × List String) :=
  [ ("Memory Management",
     "Efficient memory usage is essential for " ++ topic ++
       " performance, especially in resource-constrained environments.",
     [ "Object pooling and reuse",
       "Garbage collection optimization",
       "Memory leak prevention" ]),
    ("CPU Optimization",
     "Optimizing CPU usage ensures " ++ topic ++
       " can handle high loads efficiently.",
     [ "Algorithm optimization",
       "Parallel processing",
       "Caching strategies" ]),
    ("I/O Performance",
     "Input/output operations often become bottlenecks in " ++ topic ++
       " implementations.",
     [ "Asynchronous operations",
       "Connection pooling",
       "Batch processing" ]) ]

/-- One iteration of the area loop of `_generate_performance_section`. -/
def performanceBlock (topic : String) (area : String × String × List String) : String :=
  ("### " ++ area.1 ++ "\n\n") ++
  (area.2.1 ++ "\n\n") ++
  "**Optimization Techniques**:\n\n" ++
  strConcat (area.2.2.map (fun technique =>
    "- **" ++ technique ++ "**: Implement this technique to improve " ++
      pyLower area.1 ++ "\n")) ++
  "\n" ++
  "```python\n" ++
  ("# " ++ area.1 ++ " optimization example\n") ++
  ("# Demonstrates " ++ topic ++ " performance optimization\n\n") ++
  "class PerformanceOptimizer:\n" ++
  "    def __init__(self):\n" ++
  ("        # Initialize " ++ pyLower area.1 ++ " optimization\n") ++
  "        pass\n\n" ++
  "    def optimize(self):\n" ++
  ("        # Implement " ++ pyLower area.1 ++ " optimization\n") ++
  "        return optimized_result\n" ++
  "```\n\n"

/-- `_generate_performance_section`. -/
def generate_performance_section (topic title : String) : String :=
  "## " ++ title ++ "\n\n" ++
  ("Performance optimization is crucial for " ++ topic ++
    " implementations in production environments. ") ++
  "This section covers key performance considerations and optimization strategies.\n\n" ++
  strConcat ((performanceAreas topic).map (performanceBlock topic)) ++
  "### Performance Monitoring\n\n" ++
  ("Continuous monitoring is essential for maintaining optimal " ++ topic ++
    " performance:\n\n") ++
  "- **Metrics Collection**: Track key performance indicators\n" ++
  "- **Alerting**: Set up alerts for performance degradation\n" ++
  "- **Profiling**: Regular performance profiling to identify bottlenecks\n" ++
  "- **Benchmarking**: Establish performance baselines and targets\n\n"

/-- `_generate_generic_section`. -/
def generate_generic_section (topic title description audience : String)
    (keywords : List String) : String :=
  "## " ++ title ++ "\n\n" ++
  (description ++ "\n\n") ++
  ("This section explores important aspects of " ++ topic ++
    " that are relevant to " ++ audience ++ "-level developers. ") ++
  ("Understanding these concepts will enhance your ability to work effectively with " ++
    topic ++ ".\n\n") ++
  "### Key Concepts\n\n" ++
  ("The fundamental concepts in this area of " ++ topic ++ " include:\n\n") ++
  ("- **Core Principles**: Understanding the underlying principles that guide this aspect of " ++
    topic ++ "\n") ++
  "- **Implementation Strategies**: Different approaches for implementing these concepts\n" ++
  "- **Best Practices**: Proven methods for achieving optimal results\n\n" ++
  "### Practical Application\n\n" ++
  "Applying these concepts in real-world scenarios requires careful consideration of:\n\n" ++
  "- **Context and Requirements**: Understanding your specific use case\n" ++
  "- **Trade-offs and Decisions**: Balancing different factors in your implementation\n" ++
  ("- **Integration Considerations**: How this fits with your overall " ++ topic ++
    " strategy\n\n") ++
  (if keywords ≠ [] then
    "### Related Technologies\n\n" ++
    ("This aspect of " ++ topic ++ " often involves working with " ++
      joinComma (keywords.take 3) ++ ". ") ++
    "Understanding how these technologies interact is important for successful implementation.\n\n"
   else "")

/-- `audience_contexts` lookup of `_generate_conclusion`. -/
def audienceContextConcl (audience : String) : String :=
  if audience = "beginner" then "newcomers to the field"
  else if audience = "intermediate" then "developers with growing expertise"
  else if audience = "advanced" then "experienced professionals"
  else "developers"

/-- `content_templates["conclusion"]`, already `.format`ted. -/
def conclTemplates (topic ctx : String) : List String :=
  [ "Throughout this comprehensive guide, we" ++ apos ++
      "ve explored the essential aspects of " ++ topic ++
      ", from fundamental concepts to advanced implementation strategies. By following the best practices and examples outlined in this article, you" ++
      apos ++ "ll be well-equipped to leverage " ++ topic ++
      " effectively in your projects. Remember that mastering " ++ topic ++
      " is an ongoing journey, and staying updated with the latest developments in this field will help you maintain a competitive edge.",
    "In conclusion, " ++ topic ++ " represents a powerful tool for " ++ ctx ++
      " looking to enhance their technical capabilities. The concepts, strategies, and best practices we" ++
      apos ++ "ve discussed provide a solid foundation for your journey with " ++
      topic ++
      ". As you continue to explore and implement these techniques, remember to adapt them to your specific use cases and requirements.",
    "We" ++ apos ++ "ve covered the essential elements of " ++ topic ++
      ", providing you with both theoretical understanding and practical implementation guidance. The key to success with " ++
      topic ++
      " lies in consistent practice, continuous learning, and staying informed about emerging trends and best practices in the field. Use this knowledge as a stepping stone to further exploration and mastery of " ++
      topic ++ "." ]

/-- `cta_options` of `_generate_conclusion`. -/
def ctaOptions (topic : String) : List String :=
  [ " Start implementing " ++ topic ++
      " in your next project and experience the benefits firsthand.",
    " Join the community of developers who are successfully using " ++ topic ++
      " to build better applications.",
    " Continue your learning journey by exploring advanced " ++ topic ++
      " resources and documentation." ]

/-- `_generate_conclusion`. -/
def generate_conclusion (topic audience : String) (keywords : List String)
    (tc cc : Nat) : String :=
  let audience_context := audienceContextConcl audience
  let conclusion := pick (conclTemplates topic audience_context) tc
  let withCta := conclusion ++ pick (ctaOptions topic) cc
  if keywords ≠ [] then
    withCta ++ (" Focus on mastering " ++ joinComma (keywords.take 2) ++
      " as your next steps in the " ++ topic ++ " ecosystem.")
  else withCta

/-- A generated content section (`_generate_section_content` result). -/
structure GeneratedSection where
  title : String
  content : String
  word_count : Nat
  section_type : String
deriving Repr, DecidableEq

/-- `_generate_section_content`: classify the title and dispatch to the
matching generator (`self.section_generators`), falling back to the
generic generator. -/
def generate_section_content (sec : OutlineSection) (topic audience : String)
    (keywords : List String) : GeneratedSection :=
  let section_type := classify_section_type sec.title
  let content :=
    if section_type = "core_concepts" then
      generate_core_concepts_section topic sec.title audience keywords
    else if section_type = "implementation" then
      generate_implementation_section topic sec.title
    else if section_type = "best_practices" then
      generate_best_practices_section topic sec.title
    else if section_type = "examples" then
      generate_examples_section topic sec.title
    else if section_type = "advanced_techniques" then
      generate_advanced_section topic sec.title
    else if section_type = "performance" then
      generate_performance_section topic sec.title
    else
      generate_generic_section topic sec.title sec.description audience keywords
  { title := sec.title, content := content, word_count := pyWords content,
    section_type := section_type }

/-- `_combine_content`. -/
def combine_content (title introduction : String)
    (sections : List GeneratedSection) (conclusion : String) : String :=
  "# " ++ title ++ "\n\n" ++
  (introduction ++ "\n\n") ++
  strConcat (sections.map (fun sec => sec.content ++ "\n\n")) ++
  ("## Conclusion\n\n" ++ conclusion ++ "\n\n") ++
  "## References and Further Reading\n\n" ++
  "- [Official Documentation](https://example.com/docs)\n" ++
  "- [Community Resources](https://example.com/community)\n" ++
  "- [Best Practices Guide](https://example.com/best-practices)\n" ++
  "- [Advanced Tutorials](https://example.com/tutorials)\n\n"

/-- `_generate_metadata` result. -/
structure Metadata where
  author : String
  topic : String
  keywords : List String
  target_audience : String
  content_type : String
  seo_optimized : Bool
  reading_level : String
  categories : List String
  tags : List String
deriving Repr, DecidableEq

/-- `_generate_metadata`. -/
def generate_metadata (topic : String) (keywords : List String)
    (audience : String) : Metadata :=
  { author := "Manus AI",
    topic := topic,
    keywords := keywords,
    target_audience := audience,
    content_type := "technical_blog",
    seo_optimized := true,
    reading_level := audience,
    categories := ["Technology", "Development", "Tutorial"],
    tags := keywords ++ [topic, "development", "programming"] }

/-- `_calculate_reading_time`: `max(1, round(word_count / 225))`.  The
Python float quotient is never an exact half (2·wc = 225·odd is
impossible), so round-half-to-even equals ⌊wc/225 + 1/2⌋. -/
def calculate_reading_time (word_count : Nat) : Nat :=
  max 1 ((2 * word_count + 225) / 450)

/-- The complete blog-post dict returned by
`generate_complete_blog_post`. -/
structure BlogPost where
  title : String
  introduction : String
  content : String
  conclusion : String
  sections : List GeneratedSection
  keywords : List String
  target_audience : String
  metadata : Metadata
  generated_at : String
  word_count : Nat
  estimated_reading_time : Nat
deriving Repr, DecidableEq

/-- `EnhancedBlogGenerator.generate_complete_blog_post`.  The
`custom_requirements` argument is accepted by the source and never read,
so it is omitted here; `now` stands for `datetime.now().isoformat()`. -/
def generate_complete_blog_post (outline : Outline) (r : Rand) (now : String) :
    BlogPost :=
  let topic := outline.topic
  let target_audience := outline.target_audience
  let keywords := outline.keywords
  let title := generate_title topic keywords target_audience r.titleChoice
  let introduction :=
    generate_introduction topic target_audience keywords r.introChoice r.hookChoice
  let content_sections :=
    (outline.sections.filter (fun sec =>
      !(pyLower sec.title == "introduction" || pyLower sec.title == "conclusion"))).map
      (fun sec => generate_section_content sec topic target_audience keywords)
  let conclusion :=
    generate_conclusion topic target_audience keywords r.conclChoice r.ctaChoice
  let full_content := combine_content title introduction content_sections conclusion
  { title := title,
    introduction := introduction,
    content := full_content,
    conclusion := conclusion,
    sections := content_sections,
    keywords := keywords,
    target_audience := target_audience,
    metadata := generate_metadata topic keywords target_audience,
    generated_at := now,
    word_count := pyWords full_content,
    estimated_reading_time := calculate_reading_time (pyWords full_content) }

/-! ## Lemmas about `countTriple` -/

/-- Does the list start with three consecutive backquotes? -/
def startsTriple : List Char → Bool
  | c :: d :: e :: _ => c = bq && d = bq && e = bq
  | _ => false

/-- First character of a list exists and is not a backquote. -/
def headOk (l : List Char) : Bool :=
  match l with
  | [] => false
  | c :: _ => c ≠ bq

/-- Last character of a list exists and is not a backquote. -/
def endsOk (l : List Char) : Bool :=
  match l.getLast? with
  | none => false
  | some c => c ≠ bq

theorem countTriple_cons_of_not {c : Char} {l : List Char}
    (h : startsTriple (c :: l) = false) : countTriple (c :: l) = countTriple l := by
  cases l with
  | nil => rfl
  | cons d cs =>
    cases cs with
    | nil => rfl
    | cons e rest =>
      simp only [startsTriple, Bool.and_eq_false_iff, decide_eq_false_iff_not] at h
      simp only [countTriple, if_neg (by tauto : ¬(c = bq ∧ d = bq ∧ e = bq))]

theorem startsTriple_false_of_head {c : Char} {l : List Char} (hc : c ≠ bq) :
    startsTriple (c :: l) = false := by
  cases l with
  | nil => rfl
  | cons d cs =>
    cases cs with
    | nil => rfl
    | cons e rest => simp [startsTriple, hc]

theorem startsTriple_false_of_second {c d : Char} {l : List Char} (hd : d ≠ bq) :
    startsTriple (c :: d :: l) = false := by
  cases l with
  | nil => rfl
  | cons e rest => simp [startsTriple, hd]

theorem headOk_append {a : List Char} (b : List Char) (h : headOk a = true) :
    headOk (a ++ b) = true := by
  cases a with
  | nil => simp [headOk] at h
  | cons c cs => simpa [headOk] using h

theorem endsOk_cons {c : Char} {l : List Char} (h : l ≠ []) :
    endsOk (c :: l) = endsOk l := by
  cases l with
  | nil => exact absurd rfl h
  | cons d cs => simp [endsOk, List.getLast?_cons_cons]

theorem endsOk_append {a b : List Char} (hb : b ≠ []) :
    endsOk (a ++ b) = endsOk b := by
  unfold endsOk
  rw [List.getLast?_append]
  cases hgb : b.getLast? with
  | none => exact absurd (List.getLast?_eq_none_iff.mp hgb) hb
  | some c => rfl

theorem startsTriple_false_of_not3 {c d e : Char} (l : List Char)
    (h : ¬(c = bq ∧ d = bq ∧ e = bq)) : startsTriple (c :: d :: e :: l) = false := by
  simp only [startsTriple, Bool.and_eq_false_iff, decide_eq_false_iff_not]
  tauto

theorem countTriple_triple_cons (l : List Char) :
    countTriple (bq :: bq :: bq :: l) = countTriple l + 1 := by
  simp [countTriple]

/-- Splitting the fence count at a boundary whose right side starts with a
non-backquote character. -/
theorem countTriple_append_right {b : List Char} (a : List Char)
    (hb : headOk b = true) :
    countTriple (a ++ b) = countTriple a + countTriple b := by
  obtain ⟨x, xs, rfl⟩ : ∃ x xs, b = x :: xs := by
    cases b with
    | nil => simp [headOk] at hb
    | cons x xs => exact ⟨x, xs, rfl⟩
  have hx : x ≠ bq := by simpa [headOk] using hb
  induction a using countTriple.induct with
  | case1 => simp [countTriple]
  | case2 c =>
    rw [List.cons_append, List.nil_append,
      countTriple_cons_of_not (startsTriple_false_of_second hx)]
    simp [countTriple]
  | case3 c d =>
    rw [List.cons_append, List.cons_append, List.nil_append,
      countTriple_cons_of_not (by simp [startsTriple, hx]),
      countTriple_cons_of_not (startsTriple_false_of_second hx)]
    simp [countTriple]
  | case4 c d e rest h ih =>
    obtain ⟨rfl, rfl, rfl⟩ := h
    simp only [List.cons_append]
    rw [countTriple_triple_cons, countTriple_triple_cons, ih]
    omega
  | case5 c d e rest h ih =>
    simp only [List.cons_append] at ih ⊢
    rw [countTriple_cons_of_not (startsTriple_false_of_not3 _ h),
      countTriple_cons_of_not (startsTriple_false_of_not3 _ h)]
    exact ih

/-- Splitting the fence count at a boundary whose left side ends with a
non-backquote character. -/
theorem countTriple_append_left {a : List Char} (b : List Char)
    (ha : endsOk a = true) :
    countTriple (a ++ b) = countTriple a + countTriple b := by
  induction a using countTriple.induct with
  | case1 => simp [endsOk] at ha
  | case2 c =>
    have hc : c ≠ bq := by simpa [endsOk, List.getLast?] using ha
    rw [List.cons_append, List.nil_append,
      countTriple_cons_of_not (startsTriple_false_of_head hc)]
    simp [countTriple]
  | case3 c d =>
    have hd : d ≠ bq := by simpa [endsOk, List.getLast?] using ha
    rw [List.cons_append, List.cons_append, List.nil_append,
      countTriple_cons_of_not (startsTriple_false_of_second hd),
      countTriple_cons_of_not (startsTriple_false_of_head hd)]
    simp [countTriple]
  | case4 c d e rest h ih =>
    obtain ⟨rfl, rfl, rfl⟩ := h
    have hrest : rest ≠ [] := by
      rintro rfl
      simp [endsOk, List.getLast?] at ha
    rw [endsOk_cons (by simp), endsOk_cons (by simp), endsOk_cons hrest] at ha
    simp only [List.cons_append]
    rw [countTriple_triple_cons, countTriple_triple_cons, ih ha]
    omega
  | case5 c d e rest h ih =>
    rw [endsOk_cons (by simp)] at ha
    simp only [List.cons_append] at ih ⊢
    rw [countTriple_cons_of_not (startsTriple_false_of_not3 _ h),
      countTriple_cons_of_not (startsTriple_false_of_not3 _ h)]
    exact ih ha

/-- A list containing three consecutive backquotes has a positive fence
count. -/
theorem countTriple_pos_of_infix {l : List Char}
    (h : [bq, bq, bq] <:+: l) : 1 ≤ countTriple l := by
  obtain ⟨s, t, rfl⟩ := h
  induction s with
  | nil =>
    simp only [List.nil_append]
    rw [show ([bq, bq, bq] : List Char) ++ t = bq :: bq :: bq :: t from rfl,
      countTriple_triple_cons]
    omega
  | cons c s ih =>
    simp only [List.append_assoc] at ih ⊢
    rw [List.cons_append]
    by_cases hs : startsTriple (c :: (s ++ ([bq, bq, bq] ++ t))) = true
    · obtain ⟨d, e, rest, hd⟩ :
        ∃ d e rest, s ++ ([bq, bq, bq] ++ t) = d :: e :: rest := by
        cases s with
        | nil => exact ⟨bq, bq, bq :: t, rfl⟩
        | cons d s' =>
          cases s' with
          | nil => exact ⟨d, bq, bq :: bq :: t, rfl⟩
          | cons e s'' => exact ⟨d, e, s'' ++ ([bq, bq, bq] ++ t), by simp⟩
      rw [hd]
      rw [hd] at hs
      simp only [startsTriple, Bool.and_eq_true, decide_eq_true_eq] at hs
      obtain ⟨⟨rfl, rfl⟩, rfl⟩ := hs
      rw [countTriple_triple_cons]
      omega
    · rw [countTriple_cons_of_not (Bool.not_eq_true _ ▸ hs)]
      exact ih

/-- Conversely, a list with no three consecutive backquotes has fence
count zero. -/
theorem countTriple_eq_zero_of_not_infix {l : List Char}
    (h : ¬ [bq, bq, bq] <:+: l) : countTriple l = 0 := by
  induction l using countTriple.induct with
  | case1 => rfl
  | case2 c => rfl
  | case3 c d => rfl
  | case4 c d e rest hcde ih =>
    obtain ⟨rfl, rfl, rfl⟩ := hcde
    exact absurd ⟨[], rest, rfl⟩ h
  | case5 c d e rest hcde ih =>
    rw [countTriple_cons_of_not (startsTriple_false_of_not3 _ hcde)]
    exact ih (fun hinf => h (List.infix_cons hinf))

/-- The fence count is zero exactly when the list has no three consecutive
backquotes. -/
theorem countTriple_eq_zero_iff {l : List Char} :
    countTriple l = 0 ↔ ¬ [bq, bq, bq] <:+: l := by
  constructor
  · intro h hinf
    have := countTriple_pos_of_infix hinf
    omega
  · exact countTriple_eq_zero_of_not_infix

/-- A string with fence count zero. -/
@[reducible] def cleanS (s : String) : Prop := countTriple s.data = 0

/-! ## Piece lists

Generated text is a concatenation of literal template fragments and
interpolated variables.  A `Piece` list records that shape, so that the
fence count of the whole can be computed from the literal fragments alone:
every literal fragment in the sources ends in a non-backquote character,
and every variable is followed by a literal fragment starting with a
non-backquote character, so no occurrence of three backquotes can cross a
fragment boundary. -/

/-- A fragment of generated text: a literal (closed) fragment or an
interpolated variable, referenced by its index in an environment list. -/
inductive Piece where
  | lit : String → Piece
  | var : Nat → Piece

/-- Concatenate the fragments, reading variables from `env`. -/
def render (env : List String) : List Piece → String
  | [] => ""
  | Piece.lit s :: ps => s ++ render env ps
  | Piece.var i :: ps => env.getD i "" ++ render env ps

/-- Boundary safety of a piece list: every literal ends in a non-backquote
character, every variable is immediately followed by a literal starting
with a non-backquote character, and the list ends with a literal. -/
def wfPieces : List Piece → Bool
  | [] => false
  | [Piece.lit s] => endsOk s.data
  | Piece.lit s :: ps => endsOk s.data && wfPieces ps
  | Piece.var _ :: Piece.lit s :: ps => headOk s.data && wfPieces (Piece.lit s :: ps)
  | Piece.var _ :: _ => false

/-- Total fence count of the literal fragments. -/
def litSum : List Piece → Nat
  | [] => 0
  | Piece.lit s :: ps => countTriple s.data + litSum ps
  | Piece.var _ :: ps => litSum ps

theorem render_lit_data (env : List String) (s : String) (ps : List Piece) :
    (render env (Piece.lit s :: ps)).data = s.data ++ (render env ps).data := by
  simp [render, String.data_append]

theorem render_var_data (env : List String) (i : Nat) (ps : List Piece) :
    (render env (Piece.var i :: ps)).data =
      (env.getD i "").data ++ (render env ps).data := by
  simp [render, String.data_append]

/-- An environment of fence-free strings yields a fence-free string at
every index (the out-of-range default is the empty string). -/
theorem env_clean {env : List String} (h : ∀ s ∈ env, cleanS s) (i : Nat) :
    countTriple ((env.getD i "").data) = 0 := by
  rcases Nat.lt_or_ge i env.length with hi | hi
  · rw [List.getD_eq_getElem env "" hi]
    exact h _ (List.getElem_mem hi)
  · rw [List.getD_eq_default env "" hi]
    rfl

/-- Master fence-count lemma: for a boundary-safe piece list rendered in
a fence-free environment, the fence count of the rendered text followed
by any continuation is the literal fence total plus the continuation
count. -/
theorem renderCount (env : List String) (ps : List Piece)
    (hwf : wfPieces ps = true) (hv : ∀ s ∈ env, cleanS s) (rest : List Char) :
    countTriple ((render env ps).data ++ rest) = litSum ps + countTriple rest := by
  induction ps generalizing rest with
  | nil => simp [wfPieces] at hwf
  | cons p ps ih =>
    cases p with
    | lit s =>
      cases ps with
      | nil =>
        have hends : endsOk s.data = true := by simpa [wfPieces] using hwf
        have hd : (render env [Piece.lit s]).data = s.data := by
          simp [render, String.append_empty]
        rw [hd, countTriple_append_left rest hends]
        simp [litSum]
      | cons q qs =>
        have h12 : endsOk s.data = true ∧ wfPieces (q :: qs) = true := by
          cases q <;> simpa [wfPieces, Bool.and_eq_true] using hwf
        rw [render_lit_data, List.append_assoc,
          countTriple_append_left ((render env (q :: qs)).data ++ rest) h12.1,
          ih h12.2 rest]
        simp only [litSum]
        omega
    | var v =>
      cases ps with
      | nil => simp [wfPieces] at hwf
      | cons q qs =>
        cases q with
        | var w => simp [wfPieces] at hwf
        | lit s =>
          have h12 : headOk s.data = true ∧ wfPieces (Piece.lit s :: qs) = true := by
            simpa [wfPieces, Bool.and_eq_true] using hwf
          have hv0 : countTriple ((env.getD v "").data) = 0 := env_clean hv v
          have hho : headOk ((render env (Piece.lit s :: qs)).data ++ rest) = true := by
            rw [render_lit_data, List.append_assoc]
            exact headOk_append _ h12.1
          rw [render_var_data, List.append_assoc,
            countTriple_append_right _ hho, hv0,
            ih h12.2 rest]
          simp only [litSum]
          omega

/-- Specialisation of `renderCount`: a safe piece list with fence-free
literals, rendered in a fence-free environment, is fence-free. -/
theorem renderClean (env : List String) (ps : List Piece)
    (hwf : wfPieces ps = true) (hlit : litSum ps = 0)
    (hv : ∀ s ∈ env, cleanS s) :
    cleanS (render env ps) := by
  have h := renderCount env ps hwf hv []
  simpa [cleanS, countTriple, hlit] using h

/-! ## Lemmas about `countH2From` -/

theorem stAfter_cons (c : Char) (cs : List Char) (st : Bool) :
    stAfter (c :: cs) st = stAfter cs (c = '\n') := by
  simp [stAfter]

theorem stAfter_append (a b : List Char) (st : Bool) :
    stAfter (a ++ b) st = stAfter b (stAfter a st) := by
  simp [stAfter, List.foldl_append]

theorem countH2From_cons_ge (st : Bool) (c : Char) (cs : List Char) :
    countH2From (c = '\n') cs ≤ countH2From st (c :: cs) := by
  simp only [countH2From]
  omega

/-- Dropping a prefix can only lose heading matches: whatever is counted
from the state reached after the prefix is still counted in the whole. -/
theorem countH2From_append_ge (st : Bool) (a b : List Char) :
    countH2From (stAfter a st) b ≤ countH2From st (a ++ b) := by
  induction a generalizing st with
  | nil => simp [stAfter]
  | cons c cs ih =>
    rw [List.cons_append, stAfter_cons]
    exact le_trans (ih (c = '\n')) (countH2From_cons_ge st c (cs ++ b))

/-- Peel one leading chunk off a heading-count lower bound. -/
theorem countH2_skip (st : Bool) (a b : List Char) (n : Nat)
    (hb : n ≤ countH2From (stAfter a st) b) : n ≤ countH2From st (a ++ b) :=
  le_trans hb (countH2From_append_ge st a b)

/-- A string starting with "## " scanned from a line start yields a match
at its first position. -/
theorem countH2From_starts (tail : List Char) :
    countH2From true ('#' :: '#' :: ' ' :: tail) =
      1 + countH2From false ('#' :: ' ' :: tail) := by
  simp [countH2From, startsH2]

/-! ## Lemmas about `countLinks`

A link match never contains a newline (both `.*?` pieces exclude it and
the literal parts have none), so once the remaining text of the left part
contains a newline, a successful scan stays inside the left part. -/

theorem scanClose_localized {l : List Char} (b : List Char)
    (hnl : '\n' ∈ l) :
    scanClose (l ++ b) = none ∨
      ∃ l', scanClose (l ++ b) = some (l' ++ b) ∧ l' <:+ l ∧ '\n' ∈ l' := by
  induction l with
  | nil => cases hnl
  | cons c cs ih =>
    rw [List.cons_append]
    by_cases hc : c = ')'
    · right
      refine ⟨cs, by simp [scanClose, hc], List.suffix_cons _ _, ?_⟩
      rcases List.mem_cons.mp hnl with rfl | h
      · exact absurd hc (by decide)
      · exact h
    · by_cases hn : c = '\n'
      · left
        simp [scanClose, hc, hn]
      · have hcs : '\n' ∈ cs := by
          rcases List.mem_cons.mp hnl with rfl | h
          · exact absurd rfl hn
          · exact h
        rcases ih hcs with h | ⟨l', h1, h2, h3⟩
        · left
          simp [scanClose, hc, hn, h]
        · right
          exact ⟨l', by simp [scanClose, hc, hn, h1],
            h2.trans (List.suffix_cons _ _), h3⟩

theorem dropExact_localized {p l : List Char} (b : List Char)
    (hp : '\n' ∉ p) (hnl : '\n' ∈ l) :
    dropExact p (l ++ b) = none ∨
      ∃ l', dropExact p (l ++ b) = some (l' ++ b) ∧ l' <:+ l ∧ '\n' ∈ l' := by
  induction p generalizing l with
  | nil => exact Or.inr ⟨l, rfl, List.suffix_refl l, hnl⟩
  | cons q qs ih =>
    cases l with
    | nil => cases hnl
    | cons c cs =>
      rw [List.cons_append]
      by_cases hc : c = q
      · have hq : q ≠ '\n' := fun h => hp (h ▸ List.mem_cons_self q qs)
        have hcs : '\n' ∈ cs := by
          rcases List.mem_cons.mp hnl with rfl | h
          · exact absurd hc.symm hq
          · exact h
        have hqs : '\n' ∉ qs := fun h => hp (List.mem_cons_of_mem q h)
        rcases ih hqs hcs with h | ⟨l', h1, h2, h3⟩
        · left
          simp [dropExact, hc, h]
        · right
          exact ⟨l', by simp [dropExact, hc, h1],
            h2.trans (List.suffix_cons _ _), h3⟩
      · left
        simp [dropExact, hc]

theorem checkScheme_localized {l : List Char} (b : List Char)
    (hnl : '\n' ∈ l) :
    checkScheme (l ++ b) = none ∨
      ∃ l', checkScheme (l ++ b) = some (l' ++ b) ∧ l' <:+ l ∧ '\n' ∈ l' := by
  unfold checkScheme
  rcases dropExact_localized (p := "](https://".data) b (by decide) hnl with
    h1 | ⟨l1, h1, h1s, h1n⟩
  · rw [h1]
    rcases dropExact_localized (p := "](http://".data) b (by decide) hnl with
      h2 | ⟨l2, h2, h2s, h2n⟩
    · rw [h2]
      exact Or.inl rfl
    · rw [h2]
      rcases scanClose_localized b h2n with h3 | ⟨l3, h3, h3s, h3n⟩
      · exact Or.inl h3
      · exact Or.inr ⟨l3, h3, h3s.trans h2s, h3n⟩
  · rw [h1]
    rcases scanClose_localized b h1n with h3 | ⟨l3, h3, h3s, h3n⟩
    · exact Or.inl h3
    · exact Or.inr ⟨l3, h3, h3s.trans h1s, h3n⟩

theorem scanBody_localized {l : List Char} (b : List Char)
    (hnl : '\n' ∈ l) :
    scanBody (l ++ b) = none ∨
      ∃ l', scanBody (l ++ b) = some (l' ++ b) ∧ l' <:+ l ∧ '\n' ∈ l' := by
  induction l with
  | nil => cases hnl
  | cons c cs ih =>
    rw [List.cons_append]
    rcases checkScheme_localized (l := c :: cs) b hnl with h1 | ⟨l1, h1, h1s, h1n⟩
    · rw [List.cons_append] at h1
      by_cases hn : c = '\n'
      · left
        subst hn
        simp [scanBody, h1]
      · have hcs : '\n' ∈ cs := by
          rcases List.mem_cons.mp hnl with rfl | h
          · exact absurd rfl hn
          · exact h
        rcases ih hcs with h2 | ⟨l2, h2, h2s, h2n⟩
        · left
          simp [scanBody, h1, hn, h2]
        · right
          exact ⟨l2, by simp [scanBody, h1, hn, h2],
            h2s.trans (List.suffix_cons _ _), h2n⟩
    · rw [List.cons_append] at h1
      right
      exact ⟨l1, by simp [scanBody, h1], h1s, h1n⟩

theorem mem_of_getLast? {l : List Char} {a : Char} (h : l.getLast? = some a) :
    a ∈ l := by
  induction l with
  | nil => simp at h
  | cons c cs ih =>
    cases cs with
    | nil =>
      simp [List.getLast?] at h
      simp [h]
    | cons d ds =>
      rw [List.getLast?_cons_cons] at h
      exact List.mem_cons_of_mem c (ih h)

theorem getLast?_of_suffix {l' l : List Char} (h : l' <:+ l) (hne : l' ≠ []) :
    l.getLast? = l'.getLast? := by
  obtain ⟨u, rfl⟩ := h
  rw [List.getLast?_append]
  cases hg : l'.getLast? with
  | none => exact absurd (List.getLast?_eq_none_iff.mp hg) hne
  | some c => rfl

theorem countLinks_append_ge_aux :
    ∀ n (a b : List Char), a.length ≤ n → a.getLast? = some '\n' →
      countLinks b ≤ countLinks (a ++ b) := by
  intro n
  induction n with
  | zero =>
    intro a b hlen hlast
    have : a = [] := List.length_eq_zero.mp (Nat.le_zero.mp hlen)
    subst this
    simp at hlast
  | succ n ih =>
    intro a b hlen hlast
    cases a with
    | nil => simp at hlast
    | cons c cs =>
      cases cs with
      | nil =>
        have hc : c = '\n' := by simpa [List.getLast?] using hlast
        subst hc
        rw [List.cons_append, List.nil_append, countLinks_cons,
          if_neg (by decide : ¬('\n' = '['))]
      | cons d ds =>
        rw [List.getLast?_cons_cons] at hlast
        have hmem : '\n' ∈ d :: ds := mem_of_getLast? hlast
        have hlen' : (d :: ds).length ≤ n := by
          simpa [List.length_cons] using hlen
        rw [List.cons_append, countLinks_cons]
        by_cases hc : c = '['
        · rw [if_pos hc]
          rcases scanBody_localized (l := d :: ds) b hmem with h1 | ⟨l', h1, h1s, h1n⟩
          · rw [h1]
            exact ih (d :: ds) b hlen' hlast
          · rw [h1]
            show countLinks b ≤ 1 + countLinks (l' ++ b)
            have hlast' : l'.getLast? = some '\n' := by
              rw [← getLast?_of_suffix h1s (by rintro rfl; cases h1n)]
              exact hlast
            have hlenl' : l'.length ≤ n :=
              le_trans (List.IsSuffix.length_le h1s) hlen'
            exact le_trans (ih l' b hlenl' hlast') (by omega)
        · rw [if_neg hc]
          exact ih (d :: ds) b hlen' hlast

/-- Prepending any text that ends with a newline can only add link
matches: no match crosses a newline, so every match of the suffix
survives. -/
theorem countLinks_append_ge (a b : List Char) (ha : a.getLast? = some '\n') :
    countLinks b ≤ countLinks (a ++ b) :=
  countLinks_append_ge_aux a.length a b (Nat.le_refl _) ha

/-! ## Piece decompositions of the section generators

Each generator's output is re-expressed as a `render`ed piece list whose
variables are exactly the interpolated non-closed strings (section title,
topic, audience, joined keywords); `renderCount` then gives its fence
count under any continuation. -/

/-- The closed part of one implementation step block before the topic
interpolation. -/
def implStepA (i : Nat) (step : String) : String :=
  "### Step " ++ toString i ++ ": " ++ removeStarsS (beforeColon step) ++ "\n\n" ++
  (pyStrip (afterColonOnce step) ++ "\n\n") ++
  "```python\n" ++
  ("# Example code for " ++ pyLower (removeStarsS (beforeColon step)) ++ "\n") ++
  "# This demonstrates the implementation of "

/-- The closed part of one implementation step block after the topic
interpolation. -/
def implStepB : String :=
  "\n" ++ "# Replace with actual implementation code\n" ++ "```\n\n"

/-- Piece decomposition of `_generate_implementation_section`; variable 0
is the section title, variable 1 the topic. -/
def implPieces : List Piece :=
  [Piece.lit "## ", Piece.var 0,
   Piece.lit ("\n\n" ++ "Implementing "), Piece.var 1,
   Piece.lit (" requires a systematic approach that ensures both functionality and maintainability. " ++
     "This section provides step-by-step guidance for successful implementation.\n\n"),
   Piece.lit (implStepA 1 (implSteps.getD 0 "")), Piece.var 1, Piece.lit implStepB,
   Piece.lit (implStepA 2 (implSteps.getD 1 "")), Piece.var 1, Piece.lit implStepB,
   Piece.lit (implStepA 3 (implSteps.getD 2 "")), Piece.var 1, Piece.lit implStepB,
   Piece.lit (implStepA 4 (implSteps.getD 3 "")), Piece.var 1, Piece.lit implStepB,
   Piece.lit (implStepA 5 (implSteps.getD 4 "")), Piece.var 1, Piece.lit implStepB,
   Piece.lit ("### Common Implementation Challenges\n\n" ++ "When implementing "),
   Piece.var 1,
   Piece.lit (", you may encounter several common challenges. " ++
     "Here are the most frequent issues and their solutions:\n\n" ++
     ("- " ++ implChallenges.getD 0 "" ++ "\n") ++
     ("- " ++ implChallenges.getD 1 "" ++ "\n") ++
     ("- " ++ implChallenges.getD 2 "" ++ "\n") ++ "\n")]

theorem implSection_render (topic title : String) :
    generate_implementation_section topic title =
      render [title, topic] implPieces := by
  simp [generate_implementation_section, implPieces, implStepBlock, implStepA, implStepB,
    implSteps, implChallenges, strConcat, render, List.enumFrom, List.getD,
    String.append_assoc, String.append_empty, -String.reduceAppend]

theorem implSection_count (topic title : String) (hT : cleanS topic) (hTi : cleanS title)
    (rest : List Char) :
    countTriple ((generate_implementation_section topic title).data ++ rest) =
      10 + countTriple rest := by
  rw [implSection_render]
  rw [renderCount [title, topic] implPieces (by decide)
    (by intro s hs; simp only [List.mem_cons, List.not_mem_nil, or_false] at hs
        rcases hs with rfl | rfl <;> assumption) rest]
  norm_num [show litSum implPieces = 10 by decide]

/-- Piece decomposition of one `_generate_examples_section` loop body; the
closed strings are the example record fields, variable 1 is the topic. -/
def exPieces (t dpre dpost u : String) : List Piece :=
  [Piece.lit (("### " ++ t ++ "\n\n") ++ dpre), Piece.var 1,
   Piece.lit (dpost ++ "\n\n" ++ ("**Use Case**: " ++ u ++ "\n\n") ++ "```python\n" ++
     ("# " ++ t ++ " implementation\n") ++ "# This example demonstrates "),
   Piece.var 1,
   Piece.lit (" in " ++ pyLower u ++ "\n\n" ++ "class ExampleImplementation:\n" ++
     "    def __init__(self):\n" ++ "        # Initialize "),
   Piece.var 1,
   Piece.lit (" components\n" ++ "        pass\n\n" ++ "    def process(self, data):\n" ++
     "        # Process data using "),
   Piece.var 1,
   Piece.lit ("\n" ++ "        return processed_data\n" ++ "```\n\n" ++
     "**Key Takeaways**:\n" ++ "- Demonstrates practical "),
   Piece.var 1,
   Piece.lit (" implementation\n" ++ "- Shows integration with existing systems\n" ++
     "- Highlights performance considerations\n\n")]

/-- Piece decomposition of `_generate_examples_section`; variable 0 is the
section title, variable 1 the topic. -/
def examplesPieces : List Piece :=
  [Piece.lit "## ", Piece.var 0,
   Piece.lit ("\n\n" ++ "Real-world examples demonstrate how "), Piece.var 1,
   Piece.lit (" can be applied in practical scenarios. " ++
     "These examples showcase different use cases and implementation approaches.\n\n")] ++
  exPieces "E-commerce Platform Integration"
    "This example shows how "
    " can be integrated into an e-commerce platform to improve user experience and system performance."
    "Online retail with high traffic volumes" ++
  exPieces "Data Processing Pipeline"
    "Learn how "
    " can be used to build efficient data processing pipelines for analytics and reporting."
    "Big data analytics and business intelligence" ++
  exPieces "Mobile Application Backend"
    "Discover how "
    " powers mobile application backends, providing scalable and responsive services."
    "Mobile app development and API services"

theorem examplesSection_render (topic title : String) :
    generate_examples_section topic title = render [title, topic] examplesPieces := by
  simp [generate_examples_section, examplesPieces, exPieces, exampleBlock,
    exampleScenarios, strConcat, render, List.getD, String.append_assoc,
    String.append_empty, -String.reduceAppend]

theorem examplesSection_count (topic title : String) (hT : cleanS topic)
    (hTi : cleanS title) (rest : List Char) :
    countTriple ((generate_examples_section topic title).data ++ rest) =
      6 + countTriple rest := by
  rw [examplesSection_render]
  rw [renderCount [title, topic] examplesPieces (by decide)
    (by intro s hs; simp only [List.mem_cons, List.not_mem_nil, or_false] at hs
        rcases hs with rfl | rfl <;> assumption) rest]
  norm_num [show litSum examplesPieces = 6 by decide]

/-- Piece decomposition of one `_generate_advanced_section` loop body;
variable 1 is the topic. -/
def advPieces (t dpre dpost : String) : List Piece :=
  [Piece.lit (("### " ++ t ++ "\n\n") ++ dpre), Piece.var 1,
   Piece.lit (dpost ++ "\n\n" ++ "**Technical Implementation**:\n\n" ++
     "```python\n" ++ "# Advanced "),
   Piece.var 1,
   Piece.lit (" implementation\n" ++ "# This demonstrates sophisticated techniques\n\n" ++
     "from advanced_patterns import OptimizedProcessor\n\n" ++
     "class AdvancedImplementation(OptimizedProcessor):\n" ++
     "    def __init__(self, config):\n" ++
     "        super().__init__(config)\n" ++
     "        self.setup_advanced_features()\n\n" ++
     "    def setup_advanced_features(self):\n" ++
     "        # Configure advanced features\n" ++
     "        pass\n" ++
     "```\n\n")]

/-- Piece decomposition of `_generate_advanced_section`; variable 0 is the
section title, variable 1 the topic. -/
def advancedPieces : List Piece :=
  [Piece.lit "## ", Piece.var 0,
   Piece.lit ("\n\n" ++ "Advanced "), Piece.var 1,
   Piece.lit (" techniques enable sophisticated implementations that can handle complex requirements and scale effectively. " ++
     "These techniques are particularly valuable for experienced developers working on demanding projects.\n\n")] ++
  advPieces "Custom Extensions and Plugins"
    "Learn how to extend "
    " functionality through custom plugins and extensions." ++
  advPieces "Performance Optimization Strategies"
    "Advanced techniques for optimizing "
    " performance in high-load scenarios." ++
  advPieces "Integration Patterns"
    "Sophisticated patterns for integrating "
    " with complex system architectures." ++
  [Piece.lit ("### Considerations for Advanced Usage\n\n" ++ "When implementing advanced "),
   Piece.var 1,
   Piece.lit (" techniques, consider the following:\n\n" ++
     "- **Complexity Management**: Balance advanced features with maintainability\n" ++
     "- **Performance Impact**: Monitor the performance implications of advanced techniques\n" ++
     "- **Team Expertise**: Ensure your team has the necessary skills for advanced implementations\n" ++
     "- **Documentation**: Thoroughly document advanced implementations for future maintenance\n\n")]

theorem advancedSection_render (topic title : String) :
    generate_advanced_section topic title = render [title, topic] advancedPieces := by
  simp [generate_advanced_section, advancedPieces, advPieces, advancedBlock,
    advancedTopicsList, strConcat, render, List.getD, String.append_assoc,
    String.append_empty, -String.reduceAppend]

theorem advancedSection_count (topic title : String) (hT : cleanS topic)
    (hTi : cleanS title) (rest : List Char) :
    countTriple ((generate_advanced_section topic title).data ++ rest) =
      6 + countTriple rest := by
  rw [advancedSection_render]
  rw [renderCount [title, topic] advancedPieces (by decide)
    (by intro s hs; simp only [List.mem_cons, List.not_mem_nil, or_false] at hs
        rcases hs with rfl | rfl <;> assumption) rest]
  norm_num [show litSum advancedPieces = 6 by decide]

/-- Piece decomposition of one `_generate_performance_section` loop body;
variable 1 is the topic. -/
def perfPieces (t dpre dpost t1 t2 t3 : String) : List Piece :=
  [Piece.lit (("### " ++ t ++ "\n\n") ++ dpre), Piece.var 1,
   Piece.lit (dpost ++ "\n\n" ++ "**Optimization Techniques**:\n\n" ++
     ("- **" ++ t1 ++ "**: Implement this technique to improve " ++ pyLower t ++ "\n") ++
     ("- **" ++ t2 ++ "**: Implement this technique to improve " ++ pyLower t ++ "\n") ++
     ("- **" ++ t3 ++ "**: Implement this technique to improve " ++ pyLower t ++ "\n") ++
     "\n" ++ "```python\n" ++
     ("# " ++ t ++ " optimization example\n") ++
     "# Demonstrates "),
   Piece.var 1,
   Piece.lit (" performance optimization\n\n" ++
     "class PerformanceOptimizer:\n" ++
     "    def __init__(self):\n" ++
     ("        # Initialize " ++ pyLower t ++ " optimization\n") ++
     "        pass\n\n" ++
     "    def optimize(self):\n" ++
     ("        # Implement " ++ pyLower t ++ " optimization\n") ++
     "        return optimized_result\n" ++
     "```\n\n")]

/-- Piece decomposition of `_generate_performance_section`; variable 0 is
the section title, variable 1 the topic. -/
def performancePieces : List Piece :=
  [Piece.lit "## ", Piece.var 0,
   Piece.lit ("\n\n" ++ "Performance optimization is crucial for "), Piece.var 1,
   Piece.lit (" implementations in production environments. " ++
     "This section covers key performance considerations and optimization strategies.\n\n")] ++
  perfPieces "Memory Management"
    "Efficient memory usage is essential for "
    " performance, especially in resource-constrained environments."
    "Object pooling and reuse" "Garbage collection optimization" "Memory leak prevention" ++
  perfPieces "CPU Optimization"
    "Optimizing CPU usage ensures "
    " can handle high loads efficiently."
    "Algorithm optimization" "Parallel processing" "Caching strategies" ++
  perfPieces "I/O Performance"
    "Input/output operations often become bottlenecks in "
    " implementations."
    "Asynchronous operations" "Connection pooling" "Batch processing" ++
  [Piece.lit ("### Performance Monitoring\n\n" ++
     "Continuous monitoring is essential for maintaining optimal "),
   Piece.var 1,
   Piece.lit (" performance:\n\n" ++
     "- **Metrics Collection**: Track key performance indicators\n" ++
     "- **Alerting**: Set up alerts for performance degradation\n" ++
     "- **Profiling**: Regular performance profiling to identify bottlenecks\n" ++
     "- **Benchmarking**: Establish performance baselines and targets\n\n")]

theorem performanceSection_render (topic title : String) :
    generate_performance_section topic title = render [title, topic] performancePieces := by
  simp [generate_performance_section, performancePieces, perfPieces, performanceBlock,
    performanceAreas, strConcat, render, List.getD, String.append_assoc,
    String.append_empty, -String.reduceAppend]

theorem performanceSection_count (topic title : String) (hT : cleanS topic)
    (hTi : cleanS title) (rest : List Char) :
    countTriple ((generate_performance_section topic title).data ++ rest) =
      6 + countTriple rest := by
  rw [performanceSection_render]
  rw [renderCount [title, topic] performancePieces (by decide)
    (by intro s hs; simp only [List.mem_cons, List.not_mem_nil, or_false] at hs
        rcases hs with rfl | rfl <;> assumption) rest]
  norm_num [show litSum performancePieces = 6 by decide]

/-- Piece decomposition of `_generate_core_concepts_section` without its
keyword tail; variable 0 is the section title, variable 1 the topic,
variable 2 the audience, variable 3 the joined keywords. -/
def corePiecesBase : List Piece :=
  [Piece.lit "## ", Piece.var 0,
   Piece.lit ("\n\n" ++ "To effectively work with "), Piece.var 1,
   Piece.lit ((", it" ++ apos ++
       "s essential to understand the fundamental concepts that form its foundation. ") ++
     "These core principles will guide your implementation decisions and help you avoid common pitfalls.\n\n" ++
     "**Architecture and Design Patterns**: "),
   Piece.var 1,
   Piece.lit (" follows specific architectural patterns that promote scalability and maintainability. Understanding these patterns is crucial for building robust applications." ++
     "\n\n" ++ "**Key Components**: The main components of "),
   Piece.var 1,
   Piece.lit (" work together to provide a comprehensive solution. Each component has specific responsibilities and interfaces." ++
     "\n\n" ++ "**Data Flow and Processing**: How data moves through "),
   Piece.var 1,
   Piece.lit (" systems affects performance and reliability. Understanding this flow helps optimize your implementations." ++
     "\n\n" ++ "**Integration Points**: "),
   Piece.var 1,
   Piece.lit (" typically integrates with other systems and technologies. Knowing these integration patterns is essential for real-world applications." ++
     "\n\n" ++ "When working with "),
   Piece.var 1,
   Piece.lit (", consider how these concepts apply to your specific use case. " ++ "The "),
   Piece.var 2,
   Piece.lit "-level approach focuses on practical application while maintaining theoretical understanding.\n\n"]

/-- The keyword tail of `_generate_core_concepts_section`. -/
def coreKwTail : List Piece :=
  [Piece.lit "Key areas to focus on include ", Piece.var 3,
   Piece.lit ", which represent the most important aspects for practical implementation.\n\n"]

theorem coreSection_render_nokw (topic title audience : String) :
    generate_core_concepts_section topic title audience [] =
      render [title, topic, audience, joinComma ([].take 3)] corePiecesBase := by
  simp [generate_core_concepts_section, corePiecesBase, coreConcepts, strConcat,
    render, List.getD, String.append_assoc, String.append_empty, -String.reduceAppend]

theorem coreSection_render_kw (topic title audience : String) (keywords : List String)
    (h : keywords ≠ []) :
    generate_core_concepts_section topic title audience keywords =
      render [title, topic, audience, joinComma (keywords.take 3)]
        (corePiecesBase ++ coreKwTail) := by
  simp [generate_core_concepts_section, corePiecesBase, coreKwTail, coreConcepts,
    strConcat, render, List.getD, String.append_assoc, String.append_empty, h,
    -String.reduceAppend]

theorem coreSection_count (topic title audience : String) (keywords : List String)
    (hT : cleanS topic) (hTi : cleanS title) (hA : cleanS audience)
    (hJ : cleanS (joinComma (keywords.take 3))) (rest : List Char) :
    countTriple ((generate_core_concepts_section topic title audience keywords).data ++ rest) =
      countTriple rest := by
  have henv : ∀ s ∈ [title, topic, audience, joinComma (keywords.take 3)], cleanS s := by
    intro s hs
    simp only [List.mem_cons, List.not_mem_nil, or_false] at hs
    rcases hs with rfl | rfl | rfl | rfl <;> assumption
  by_cases hkw : keywords = []
  · subst hkw
    rw [coreSection_render_nokw,
      renderCount [title, topic, audience, joinComma ([].take 3)] corePiecesBase
        (by decide) henv rest]
    norm_num [show litSum corePiecesBase = 0 by decide]
  · rw [coreSection_render_kw topic title audience keywords hkw,
      renderCount [title, topic, audience, joinComma (keywords.take 3)]
        (corePiecesBase ++ coreKwTail) (by decide) henv rest]
    norm_num [show litSum (corePiecesBase ++ coreKwTail) = 0 by decide]

/-- Piece decomposition of `_generate_best_practices_section`; variable 0
is the section title, variable 1 the topic. -/
def bestPieces : List Piece :=
  [Piece.lit "## ", Piece.var 0,
   Piece.lit ("\n\n" ++ "Following established best practices is crucial for successful "),
   Piece.var 1,
   Piece.lit (" implementation. " ++
     "These guidelines have been developed through industry experience and help ensure reliable, maintainable solutions.\n\n" ++
     ("### " ++ "Code Organization and Structure" ++ "\n\n") ++
     ("- **" ++ "Maintain clear separation of concerns" ++ "**: This ensures your ")),
   Piece.var 1,
   Piece.lit (" implementation remains robust and maintainable.\n" ++
     ("- **" ++ "Use consistent naming conventions" ++ "**: This ensures your ")),
   Piece.var 1,
   Piece.lit (" implementation remains robust and maintainable.\n" ++
     ("- **" ++ "Implement proper error handling" ++ "**: This ensures your ")),
   Piece.var 1,
   Piece.lit (" implementation remains robust and maintainable.\n" ++
     ("- **" ++ "Document your code thoroughly" ++ "**: This ensures your ")),
   Piece.var 1,
   Piece.lit (" implementation remains robust and maintainable.\n" ++ "\n" ++
     ("### " ++ "Performance and Optimization" ++ "\n\n") ++
     ("- **" ++ "Profile your application regularly" ++ "**: This ensures your ")),
   Piece.var 1,
   Piece.lit (" implementation remains robust and maintainable.\n" ++
     ("- **" ++ "Optimize critical code paths" ++ "**: This ensures your ")),
   Piece.var 1,
   Piece.lit (" implementation remains robust and maintainable.\n" ++
     ("- **" ++ "Use appropriate caching strategies" ++ "**: This ensures your ")),
   Piece.var 1,
   Piece.lit (" implementation remains robust and maintainable.\n" ++
     ("- **" ++ "Monitor resource usage" ++ "**: This ensures your ")),
   Piece.var 1,
   Piece.lit (" implementation remains robust and maintainable.\n" ++ "\n" ++
     ("### " ++ "Security and Reliability" ++ "\n\n") ++
     ("- **" ++ "Validate all input data" ++ "**: This ensures your ")),
   Piece.var 1,
   Piece.lit (" implementation remains robust and maintainable.\n" ++
     ("- **" ++ "Implement proper authentication" ++ "**: This ensures your ")),
   Piece.var 1,
   Piece.lit (" implementation remains robust and maintainable.\n" ++
     ("- **" ++ "Use secure communication protocols" ++ "**: This ensures your ")),
   Piece.var 1,
   Piece.lit (" implementation remains robust and maintainable.\n" ++
     ("- **" ++ "Plan for failure scenarios" ++ "**: This ensures your ")),
   Piece.var 1,
   Piece.lit (" implementation remains robust and maintainable.\n" ++ "\n" ++
     "### Industry Insights\n\n" ++
     "Leading organizations have identified several key factors for successful "),
   Piece.var 1,
   Piece.lit (" adoption:\n\n" ++ "1. **Team Training**: Ensure your team understands "),
   Piece.var 1,
   Piece.lit (" concepts and best practices.\n" ++
     "2. **Gradual Implementation**: Start with small, manageable projects before scaling up.\n" ++
     "3. **Continuous Monitoring**: Implement monitoring and alerting for production systems.\n" ++
     "4. **Regular Updates**: Stay current with "),
   Piece.var 1,
   Piece.lit " updates and security patches.\n\n"]

theorem bestSection_render (topic title : String) :
    generate_best_practices_section topic title = render [title, topic] bestPieces := by
  simp [generate_best_practices_section, bestPieces, bestPracticeBlock,
    bestPracticeCategories, strConcat, render, List.getD, String.append_assoc,
    String.append_empty, -String.reduceAppend]

theorem bestSection_count (topic title : String) (hT : cleanS topic)
    (hTi : cleanS title) (rest : List Char) :
    countTriple ((generate_best_practices_section topic title).data ++ rest) =
      countTriple rest := by
  rw [bestSection_render]
  rw [renderCount [title, topic] bestPieces (by decide)
    (by intro s hs; simp only [List.mem_cons, List.not_mem_nil, or_false] at hs
        rcases hs with rfl | rfl <;> assumption) rest]
  norm_num [show litSum bestPieces = 0 by decide]

/-- Piece decomposition of `_generate_generic_section` without its keyword
tail; variable 0 is the section title, variable 1 the topic, variable 2
the description, variable 3 the audience, variable 4 the joined
keywords. -/
def genericPiecesBase : List Piece :=
  [Piece.lit "## ", Piece.var 0,
   Piece.lit "\n\n", Piece.var 2,
   Piece.lit ("\n\n" ++ "This section explores important aspects of "), Piece.var 1,
   Piece.lit " that are relevant to ", Piece.var 3,
   Piece.lit ("-level developers. " ++
     "Understanding these concepts will enhance your ability to work effectively with "),
   Piece.var 1,
   Piece.lit (".\n\n" ++ "### Key Concepts\n\n" ++
     "The fundamental concepts in this area of "),
   Piece.var 1,
   Piece.lit (" include:\n\n" ++
     "- **Core Principles**: Understanding the underlying principles that guide this aspect of "),
   Piece.var 1,
   Piece.lit ("\n" ++
     "- **Implementation Strategies**: Different approaches for implementing these concepts\n" ++
     "- **Best Practices**: Proven methods for achieving optimal results\n\n" ++
     "### Practical Application\n\n" ++
     "Applying these concepts in real-world scenarios requires careful consideration of:\n\n" ++
     "- **Context and Requirements**: Understanding your specific use case\n" ++
     "- **Trade-offs and Decisions**: Balancing different factors in your implementation\n" ++
     "- **Integration Considerations**: How this fits with your overall "),
   Piece.var 1,
   Piece.lit " strategy\n\n"]

/-- The keyword tail of `_generate_generic_section`. -/
def genericKwTail : List Piece :=
  [Piece.lit ("### Related Technologies\n\n" ++ "This aspect of "), Piece.var 1,
   Piece.lit " often involves working with ", Piece.var 4,
   Piece.lit (". " ++
     "Understanding how these technologies interact is important for successful implementation.\n\n")]

theorem genericSection_render_nokw (topic title description audience : String) :
    generate_generic_section topic title description audience [] =
      render [title, topic, description, audience, joinComma ([].take 3)]
        genericPiecesBase := by
  simp [generate_generic_section, genericPiecesBase, render, List.getD,
    String.append_assoc, String.append_empty, -String.reduceAppend]

theorem genericSection_render_kw (topic title description audience : String)
    (keywords : List String) (h : keywords ≠ []) :
    generate_generic_section topic title description audience keywords =
      render [title, topic, description, audience, joinComma (keywords.take 3)]
        (genericPiecesBase ++ genericKwTail) := by
  simp [generate_generic_section, genericPiecesBase, genericKwTail, render,
    List.getD, String.append_assoc, String.append_empty, h, -String.reduceAppend]

theorem genericSection_count (topic title description audience : String)
    (keywords : List String) (hT : cleanS topic) (hTi : cleanS title)
    (hD : cleanS description) (hA : cleanS audience)
    (hJ : cleanS (joinComma (keywords.take 3))) (rest : List Char) :
    countTriple ((generate_generic_section topic title description audience keywords).data ++ rest) =
      countTriple rest := by
  have henv : ∀ s ∈ [title, topic, description, audience, joinComma (keywords.take 3)],
      cleanS s := by
    intro s hs
    simp only [List.mem_cons, List.not_mem_nil, or_false] at hs
    rcases hs with rfl | rfl | rfl | rfl | rfl <;> assumption
  by_cases hkw : keywords = []
  · subst hkw
    rw [genericSection_render_nokw,
      renderCount [title, topic, description, audience, joinComma ([].take 3)]
        genericPiecesBase (by decide) henv rest]
    norm_num [show litSum genericPiecesBase = 0 by decide]
  · rw [genericSection_render_kw topic title description audience keywords hkw,
      renderCount [title, topic, description, audience, joinComma (keywords.take 3)]
        (genericPiecesBase ++ genericKwTail) (by decide) henv rest]
    norm_num [show litSum (genericPiecesBase ++ genericKwTail) = 0 by decide]

/-! ## String-level cleanliness helpers -/

theorem cleanS_append {a b : String} (h1 : cleanS a) (h2 : cleanS b)
    (h : headOk b.data = true ∨ endsOk a.data = true) : cleanS (a ++ b) := by
  unfold cleanS at *
  rw [String.data_append]
  rcases h with h | h
  · rw [countTriple_append_right _ h, h1, h2]
  · rw [countTriple_append_left _ h, h1, h2]

theorem pick_mem {l : List String} (hl : l ≠ []) (n : Nat) : pick l n ∈ l := by
  unfold pick
  have hpos : 0 < l.length := List.length_pos.mpr hl
  have hlt : n % l.length < l.length := Nat.mod_lt n hpos
  rw [List.getD_eq_getElem l "" hlt]
  exact List.getElem_mem hlt

/-- Transport any property along `random.choice`. -/
theorem pick_prop {P : String → Prop} {l : List String} (h : ∀ s ∈ l, P s)
    (hl : l ≠ []) (n : Nat) : P (pick l n) :=
  h _ (pick_mem hl n)

theorem joinComma_clean (l : List String) (h : ∀ s ∈ l, cleanS s) :
    cleanS (joinComma l) := by
  induction l with
  | nil => rfl
  | cons a rest ih =>
    cases rest with
    | nil => exact h a (List.mem_cons_self _ _)
    | cons b bs =>
      show cleanS ((a ++ ", ") ++ joinComma (b :: bs))
      apply cleanS_append
      · exact cleanS_append (h a (List.mem_cons_self _ _)) (by decide)
          (Or.inl (by rfl))
      · exact ih (fun s hs => h s (List.mem_cons_of_mem _ hs))
      · right
        rw [String.data_append, endsOk_append (by decide)]
        decide

theorem take_clean {l : List String} (n : Nat) (h : ∀ s ∈ l, cleanS s) :
    ∀ s ∈ l.take n, cleanS s :=
  fun s hs => h s (List.take_subset n l hs)

/-! ## `str.title()` preserves backquote positions

`pyTitleAux` maps cased characters to cased characters and leaves the
rest in place, so the backquote mask is unchanged and the fence count is
preserved. -/

theorem countTriple_of_mask : ∀ (l₁ l₂ : List Char),
    l₁.map (fun c => c == bq) = l₂.map (fun c => c == bq) →
    countTriple l₁ = countTriple l₂ := by
  intro l₁
  induction l₁ using countTriple.induct with
  | case1 =>
    intro l₂ h
    have : l₂ = [] := by
      cases l₂ with
      | nil => rfl
      | cons c cs => simp at h
    simp [this]
  | case2 c =>
    intro l₂ h
    obtain ⟨d, rfl⟩ : ∃ d, l₂ = [d] := by
      cases l₂ with
      | nil => simp at h
      | cons d ds =>
        cases ds with
        | nil => exact ⟨d, rfl⟩
        | cons e es => simp at h
    rfl
  | case3 c d =>
    intro l₂ h
    obtain ⟨x, y, rfl⟩ : ∃ x y, l₂ = [x, y] := by
      cases l₂ with
      | nil => simp at h
      | cons x xs =>
        cases xs with
        | nil => simp at h
        | cons y ys =>
          cases ys with
          | nil => exact ⟨x, y, rfl⟩
          | cons z zs => simp at h
    rfl
  | case4 c d e rest hcde ih =>
    obtain ⟨rfl, rfl, rfl⟩ := hcde
    intro l₂ h
    obtain ⟨x, y, z, zs, rfl⟩ : ∃ x y z zs, l₂ = x :: y :: z :: zs := by
      cases l₂ with
      | nil => simp at h
      | cons x xs =>
        cases xs with
        | nil => simp at h
        | cons y ys =>
          cases ys with
          | nil => simp at h
          | cons z zs => exact ⟨x, y, z, zs, rfl⟩
    simp only [List.map_cons, List.cons.injEq] at h
    obtain ⟨h1, h2, h3, h4⟩ := h
    have hx : x = bq := by
      have := h1.symm
      simpa [beq_iff_eq] using this
    have hy : y = bq := by
      have := h2.symm
      simpa [beq_iff_eq] using this
    have hz : z = bq := by
      have := h3.symm
      simpa [beq_iff_eq] using this
    subst hx hy hz
    rw [countTriple_triple_cons, countTriple_triple_cons, ih zs h4]
  | case5 c d e rest hcde ih =>
    intro l₂ h
    obtain ⟨x, y, z, zs, rfl⟩ : ∃ x y z zs, l₂ = x :: y :: z :: zs := by
      cases l₂ with
      | nil => simp at h
      | cons x xs =>
        cases xs with
        | nil => simp at h
        | cons y ys =>
          cases ys with
          | nil => simp at h
          | cons z zs => exact ⟨x, y, z, zs, rfl⟩
    simp only [List.map_cons, List.cons.injEq] at h
    obtain ⟨h1, h2, h3, h4⟩ := h
    have hxyz : ¬(x = bq ∧ y = bq ∧ z = bq) := by
      intro ⟨hx, hy, hz⟩
      apply hcde
      refine ⟨?_, ?_, ?_⟩
      · have := h1
        rw [hx] at this
        simpa [beq_iff_eq] using this
      · have := h2
        rw [hy] at this
        simpa [beq_iff_eq] using this
      · have := h3
        rw [hz] at this
        simpa [beq_iff_eq] using this
    rw [countTriple_cons_of_not (startsTriple_false_of_not3 _ hcde),
      countTriple_cons_of_not (startsTriple_false_of_not3 _ hxyz)]
    exact ih (y :: z :: zs) (by simp [h2, h3, h4])

theorem toNat_ofNat_valid {n : Nat} (h : n.isValidChar) :
    (Char.ofNat n).toNat = n := by
  unfold Char.ofNat
  rw [dif_pos h]
  simp [Char.ofNatAux, Char.toNat, UInt32.toNat]

theorem toLower_eq_bq_iff (c : Char) : c.toLower = bq ↔ c = bq := by
  constructor
  · intro h
    simp only [Char.toLower] at h
    split at h
    · rename_i hc
      exfalso
      have h1 : (Char.ofNat (c.toNat + 32)).toNat = 96 := by
        rw [h]
        decide
      rw [toNat_ofNat_valid (Or.inl (by omega))] at h1
      omega
    · exact h
  · intro h
    subst h
    decide

theorem toUpper_eq_bq_iff (c : Char) : c.toUpper = bq ↔ c = bq := by
  constructor
  · intro h
    simp only [Char.toUpper] at h
    split at h
    · rename_i hc
      exfalso
      have h1 : (Char.ofNat (c.toNat - 32)).toNat = 96 := by
        rw [h]
        decide
      rw [toNat_ofNat_valid (Or.inl (by omega))] at h1
      omega
    · exact h
  · intro h
    subst h
    decide

theorem titleChar_bq (prev : Bool) (c : Char) :
    ((if prev then c.toLower else c.toUpper) == bq) = (c == bq) := by
  cases prev
  · simp only [Bool.false_eq_true, if_false]
    by_cases h : c = bq
    · subst h
      decide
    · have h1 : c.toUpper ≠ bq := fun hh => h ((toUpper_eq_bq_iff c).mp hh)
      simp [h, h1]
  · simp only [if_true]
    by_cases h : c = bq
    · subst h
      decide
    · have h1 : c.toLower ≠ bq := fun hh => h ((toLower_eq_bq_iff c).mp hh)
      simp [h, h1]

theorem pyTitleAux_mask (b : Bool) (l : List Char) :
    (pyTitleAux b l).map (fun c => c == bq) = l.map (fun c => c == bq) := by
  induction l generalizing b with
  | nil => rfl
  | cons c cs ih =>
    by_cases hc : c.isAlpha
    · simp [pyTitleAux, hc, titleChar_bq, ih]
    · simp [pyTitleAux, hc, ih]

theorem pyTitleCase_clean {s : String} (h : cleanS s) : cleanS (pyTitleCase s) := by
  unfold cleanS at *
  unfold pyTitleCase
  rw [countTriple_of_mask (pyTitleAux false s.data) s.data (pyTitleAux_mask false s.data)]
  exact h

/-! ## Cleanliness of the randomized templates -/

/-- Pieces of the seven `title_patterns`; variable 0 is the topic,
variable 1 the title-cased audience. -/
def tp0 : List Piece :=
  [Piece.lit "The Complete Guide to ", Piece.var 0,
   Piece.lit ": Best Practices for ", Piece.var 1, Piece.lit " Developers"]

def tp1 : List Piece :=
  [Piece.lit "Mastering ", Piece.var 0, Piece.lit ": A Comprehensive ",
   Piece.var 1, Piece.lit "-Level Tutorial"]

def tp2 : List Piece :=
  [Piece.lit "Understanding ", Piece.var 0,
   Piece.lit ": From Basics to Advanced Implementation"]

def tp3 : List Piece :=
  [Piece.lit "How to Implement ", Piece.var 0,
   Piece.lit ": A Step-by-Step Guide for ", Piece.var 1, Piece.lit " Users"]

def tp4 : List Piece :=
  [Piece.var 0, Piece.lit " Explained: Essential Concepts and Practical Examples"]

def tp5 : List Piece :=
  [Piece.lit "Building with ", Piece.var 0,
   Piece.lit ": Modern Approaches and Best Practices"]

def tp6 : List Piece :=
  [Piece.lit "The Developer", Piece.lit apos, Piece.lit "s Guide to ", Piece.var 0,
   Piece.lit ": Tips, Tricks, and Real-World Applications"]

theorem titlePatterns_eq (topic audience : String) :
    titlePatterns topic audience =
      [render [topic, pyTitleCase audience] tp0,
       render [topic, pyTitleCase audience] tp1,
       render [topic, pyTitleCase audience] tp2,
       render [topic, pyTitleCase audience] tp3,
       render [topic, pyTitleCase audience] tp4,
       render [topic, pyTitleCase audience] tp5,
       render [topic, pyTitleCase audience] tp6] := by
  simp [titlePatterns, tp0, tp1, tp2, tp3, tp4, tp5, tp6, render, List.getD,
    String.append_assoc, String.append_empty, -String.reduceAppend]

theorem titlePatterns_clean (topic audience : String) (hT : cleanS topic)
    (hA : cleanS audience) : ∀ s ∈ titlePatterns topic audience, cleanS s := by
  have henv : ∀ s ∈ [topic, pyTitleCase audience], cleanS s := by
    intro s hs
    simp only [List.mem_cons, List.not_mem_nil, or_false] at hs
    rcases hs with rfl | rfl
    · exact hT
    · exact pyTitleCase_clean hA
  rw [titlePatterns_eq]
  intro s hs
  simp only [List.mem_cons, List.not_mem_nil, or_false] at hs
  rcases hs with rfl | rfl | rfl | rfl | rfl | rfl | rfl <;>
    exact renderClean _ _ (by decide) (by decide) henv

theorem generate_title_clean (topic : String) (kws : List String) (audience : String)
    (c : Nat) (hT : cleanS topic) (hK : ∀ s ∈ kws, cleanS s) (hA : cleanS audience) :
    cleanS (generate_title topic kws audience c) := by
  have hbase : cleanS (pick (titlePatterns topic audience) c) :=
    pick_prop (titlePatterns_clean topic audience hT hA) (by simp [titlePatterns]) c
  have hka : cleanS (" - " ++ joinComma (kws.take 2)) :=
    cleanS_append (by decide) (joinComma_clean _ (take_clean 2 hK)) (Or.inr (by decide))
  simp only [generate_title]
  split
  · split
    · exact cleanS_append hbase hka (Or.inl (by rw [String.data_append]; rfl))
    · exact hbase
  · exact hbase

theorem audienceContextIntro_clean (audience : String) :
    cleanS (audienceContextIntro audience) := by
  unfold audienceContextIntro
  split
  · decide
  · split
    · decide
    · split <;> decide

/-- Pieces of the three introduction templates; variable 0 is the topic,
variable 1 the audience context. -/
def itp0 : List Piece :=
  [Piece.lit "In today", Piece.lit apos,
   Piece.lit "s rapidly evolving technology landscape, ", Piece.var 0,
   Piece.lit " has emerged as a critical component for ", Piece.var 1,
   Piece.lit ". This comprehensive guide will explore the fundamental concepts, practical implementations, and best practices that will help you master ",
   Piece.var 0,
   Piece.lit " and leverage its full potential in your projects."]

def itp1 : List Piece :=
  [Piece.lit "Understanding ", Piece.var 0,
   Piece.lit " is essential for modern developers who want to stay competitive in the tech industry. Whether you",
   Piece.lit apos, Piece.lit "re ", Piece.var 1,
   Piece.lit ", this article will provide you with the knowledge and practical insights needed to effectively implement ",
   Piece.var 0, Piece.lit " in your work."]

def itp2 : List Piece :=
  [Piece.lit "As technology continues to advance, ", Piece.var 0,
   Piece.lit " has become increasingly important for ", Piece.var 1,
   Piece.lit ". In this detailed exploration, we", Piece.lit apos,
   Piece.lit "ll dive deep into the core concepts, examine real-world applications, and provide you with actionable strategies for implementing ",
   Piece.var 0, Piece.lit " successfully."]

theorem introTemplates_eq (topic ctx : String) :
    introTemplates topic ctx =
      [render [topic, ctx] itp0, render [topic, ctx] itp1, render [topic, ctx] itp2] := by
  simp [introTemplates, itp0, itp1, itp2, render, List.getD,
    String.append_assoc, String.append_empty, -String.reduceAppend]

theorem introTemplates_clean (topic ctx : String) (hT : cleanS topic)
    (hC : cleanS ctx) : ∀ s ∈ introTemplates topic ctx, cleanS s := by
  have henv : ∀ s ∈ [topic, ctx], cleanS s := by
    intro s hs
    simp only [List.mem_cons, List.not_mem_nil, or_false] at hs
    rcases hs with rfl | rfl
    · exact hT
    · exact hC
  rw [introTemplates_eq]
  intro s hs
  simp only [List.mem_cons, List.not_mem_nil, or_false] at hs
  rcases hs with rfl | rfl | rfl <;>
    exact renderClean _ _ (by decide) (by decide) henv

/-- Pieces of the three hook sentences; variable 0 is the topic. -/
def hkp0 : List Piece :=
  [Piece.lit " Did you know that proper implementation of ", Piece.var 0,
   Piece.lit " can significantly improve your application", Piece.lit apos,
   Piece.lit "s performance and maintainability?"]

def hkp1 : List Piece :=
  [Piece.lit " Recent industry surveys show that ", Piece.var 0,
   Piece.lit " skills are among the most sought-after in today", Piece.lit apos,
   Piece.lit "s job market."]

def hkp2 : List Piece :=
  [Piece.lit " Many developers struggle with ", Piece.var 0,
   Piece.lit " implementation, but with the right approach, it becomes much more manageable."]

theorem hookSentences_eq (topic : String) :
    hookSentences topic =
      [render [topic] hkp0, render [topic] hkp1, render [topic] hkp2] := by
  simp [hookSentences, hkp0, hkp1, hkp2, render, List.getD,
    String.append_assoc, String.append_empty, -String.reduceAppend]

theorem hookSentences_props (topic : String) (hT : cleanS topic) :
    ∀ s ∈ hookSentences topic, cleanS s ∧ headOk s.data = true := by
  have henv : ∀ s ∈ [topic], cleanS s := by
    intro s hs
    simp only [List.mem_cons, List.not_mem_nil, or_false] at hs
    rcases hs with rfl
    exact hT
  rw [hookSentences_eq]
  intro s hs
  simp only [List.mem_cons, List.not_mem_nil, or_false] at hs
  rcases hs with rfl | rfl | rfl <;>
    exact ⟨renderClean _ _ (by decide) (by decide) henv,
      by simp only [hkp0, hkp1, hkp2]; rw [render_lit_data]; rfl⟩

theorem generate_introduction_clean (topic audience : String) (kws : List String)
    (tc hc : Nat) (hT : cleanS topic) (hK : ∀ s ∈ kws, cleanS s) :
    cleanS (generate_introduction topic audience kws tc hc) := by
  have hctx := audienceContextIntro_clean audience
  have hhook := pick_prop (P := fun s => cleanS s ∧ headOk s.data = true)
    (hookSentences_props topic hT) (by simp [hookSentences]) hc
  have hbase : cleanS (pick (introTemplates topic (audienceContextIntro audience)) tc) :=
    pick_prop (introTemplates_clean topic _ hT hctx) (by simp [introTemplates]) tc
  have hkwS : cleanS (" Key areas we" ++ apos ++ "ll cover include " ++
      joinComma (kws.take 3) ++
      ", ensuring you gain practical knowledge that can be immediately applied to your projects.") := by
    apply cleanS_append _ (by decide) (Or.inl (by decide))
    apply cleanS_append _ (joinComma_clean _ (take_clean 3 hK))
      (Or.inr (by rw [String.data_append, endsOk_append (by decide)]; decide))
    apply cleanS_append _ (by decide) (Or.inl (by decide))
    exact cleanS_append (by decide) (by decide) (Or.inl (by decide))
  simp only [generate_introduction]
  split
  · exact cleanS_append (cleanS_append hbase hkwS
      (Or.inl (by simp only [String.data_append, List.append_assoc]; rfl)))
      hhook.1 (Or.inl hhook.2)
  · exact cleanS_append hbase hhook.1 (Or.inl hhook.2)

theorem audienceContextConcl_clean (audience : String) :
    cleanS (audienceContextConcl audience) := by
  unfold audienceContextConcl
  split
  · decide
  · split
    · decide
    · split <;> decide

/-- Pieces of the three conclusion templates; variable 0 is the topic,
variable 1 the audience context. -/
def ctp0 : List Piece :=
  [Piece.lit "Throughout this comprehensive guide, we", Piece.lit apos,
   Piece.lit "ve explored the essential aspects of ", Piece.var 0,
   Piece.lit ", from fundamental concepts to advanced implementation strategies. By following the best practices and examples outlined in this article, you",
   Piece.lit apos, Piece.lit "ll be well-equipped to leverage ", Piece.var 0,
   Piece.lit " effectively in your projects. Remember that mastering ", Piece.var 0,
   Piece.lit " is an ongoing journey, and staying updated with the latest developments in this field will help you maintain a competitive edge."]

def ctp1 : List Piece :=
  [Piece.lit "In conclusion, ", Piece.var 0,
   Piece.lit " represents a powerful tool for ", Piece.var 1,
   Piece.lit " looking to enhance their technical capabilities. The concepts, strategies, and best practices we",
   Piece.lit apos, Piece.lit "ve discussed provide a solid foundation for your journey with ",
   Piece.var 0,
   Piece.lit ". As you continue to explore and implement these techniques, remember to adapt them to your specific use cases and requirements."]

def ctp2 : List Piece :=
  [Piece.lit "We", Piece.lit apos, Piece.lit "ve covered the essential elements of ",
   Piece.var 0,
   Piece.lit ", providing you with both theoretical understanding and practical implementation guidance. The key to success with ",
   Piece.var 0,
   Piece.lit " lies in consistent practice, continuous learning, and staying informed about emerging trends and best practices in the field. Use this knowledge as a stepping stone to further exploration and mastery of ",
   Piece.var 0, Piece.lit "."]

theorem conclTemplates_eq (topic ctx : String) :
    conclTemplates topic ctx =
      [render [topic, ctx] ctp0, render [topic, ctx] ctp1, render [topic, ctx] ctp2] := by
  simp [conclTemplates, ctp0, ctp1, ctp2, render, List.getD,
    String.append_assoc, String.append_empty, -String.reduceAppend]

theorem conclTemplates_clean (topic ctx : String) (hT : cleanS topic)
    (hC : cleanS ctx) : ∀ s ∈ conclTemplates topic ctx, cleanS s := by
  have henv : ∀ s ∈ [topic, ctx], cleanS s := by
    intro s hs
    simp only [List.mem_cons, List.not_mem_nil, or_false] at hs
    rcases hs with rfl | rfl
    · exact hT
    · exact hC
  rw [conclTemplates_eq]
  intro s hs
  simp only [List.mem_cons, List.not_mem_nil, or_false] at hs
  rcases hs with rfl | rfl | rfl <;>
    exact renderClean _ _ (by decide) (by decide) henv

/-- Pieces of the three call-to-action sentences; variable 0 is the
topic. -/
def cta0 : List Piece :=
  [Piece.lit " Start implementing ", Piece.var 0,
   Piece.lit " in your next project and experience the benefits firsthand."]

def cta1 : List Piece :=
  [Piece.lit " Join the community of developers who are successfully using ",
   Piece.var 0, Piece.lit " to build better applications."]

def cta2 : List Piece :=
  [Piece.lit " Continue your learning journey by exploring advanced ",
   Piece.var 0, Piece.lit " resources and documentation."]

theorem ctaOptions_eq (topic : String) :
    ctaOptions topic =
      [render [topic] cta0, render [topic] cta1, render [topic] cta2] := by
  simp [ctaOptions, cta0, cta1, cta2, render, List.getD,
    String.append_assoc, String.append_empty, -String.reduceAppend]

theorem ctaOptions_props (topic : String) (hT : cleanS topic) :
    ∀ s ∈ ctaOptions topic, cleanS s ∧ headOk s.data = true := by
  have henv : ∀ s ∈ [topic], cleanS s := by
    intro s hs
    simp only [List.mem_cons, List.not_mem_nil, or_false] at hs
    rcases hs with rfl
    exact hT
  rw [ctaOptions_eq]
  intro s hs
  simp only [List.mem_cons, List.not_mem_nil, or_false] at hs
  rcases hs with rfl | rfl | rfl <;>
    exact ⟨renderClean _ _ (by decide) (by decide) henv,
      by simp only [cta0, cta1, cta2]; rw [render_lit_data]; rfl⟩

theorem generate_conclusion_clean (topic audience : String) (kws : List String)
    (tc cc : Nat) (hT : cleanS topic) (hK : ∀ s ∈ kws, cleanS s) :
    cleanS (generate_conclusion topic audience kws tc cc) := by
  have hctx := audienceContextConcl_clean audience
  have hcta := pick_prop (P := fun s => cleanS s ∧ headOk s.data = true)
    (ctaOptions_props topic hT) (by simp [ctaOptions]) cc
  have hbase : cleanS (pick (conclTemplates topic (audienceContextConcl audience)) tc) :=
    pick_prop (conclTemplates_clean topic _ hT hctx) (by simp [conclTemplates]) tc
  have hwc : cleanS (pick (conclTemplates topic (audienceContextConcl audience)) tc ++
      pick (ctaOptions topic) cc) :=
    cleanS_append hbase hcta.1 (Or.inl hcta.2)
  have htail : cleanS (" Focus on mastering " ++ joinComma (kws.take 2) ++
      " as your next steps in the " ++ topic ++ " ecosystem.") := by
    apply cleanS_append _ (by decide) (Or.inl (by decide))
    apply cleanS_append _ hT
      (Or.inr (by rw [String.data_append, endsOk_append (by decide)]; decide))
    apply cleanS_append _ (by decide) (Or.inl (by decide))
    exact cleanS_append (by decide) (joinComma_clean _ (take_clean 2 hK))
      (Or.inr (by decide))
  simp only [generate_conclusion]
  split
  · exact cleanS_append hwc htail
      (Or.inl (by simp only [String.data_append, List.append_assoc]; rfl))
  · exact hwc

/-! ## Every section generator emits a level-2 heading first -/

theorem startsH2_prefix (q : String) : startsH2 ("## " ++ q).data = true := by
  rw [String.data_append]
  rfl

theorem startsH2_exists {l : List Char} (h : startsH2 l = true) :
    ∃ tail, l = '#' :: '#' :: ' ' :: tail := by
  cases l with
  | nil => simp [startsH2] at h
  | cons a l1 =>
    cases l1 with
    | nil => simp [startsH2] at h
    | cons b l2 =>
      cases l2 with
      | nil => simp [startsH2] at h
      | cons c tail =>
        simp only [startsH2, Bool.and_eq_true, decide_eq_true_eq] at h
        obtain ⟨⟨rfl, rfl⟩, rfl⟩ := h
        exact ⟨tail, rfl⟩

theorem startsH2_core (topic title audience : String) (kws : List String) :
    startsH2 (generate_core_concepts_section topic title audience kws).data = true := by
  simp only [generate_core_concepts_section, String.append_assoc]
  exact startsH2_prefix _

theorem startsH2_impl (topic title : String) :
    startsH2 (generate_implementation_section topic title).data = true := by
  simp only [generate_implementation_section, String.append_assoc]
  exact startsH2_prefix _

theorem startsH2_best (topic title : String) :
    startsH2 (generate_best_practices_section topic title).data = true := by
  simp only [generate_best_practices_section, String.append_assoc]
  exact startsH2_prefix _

theorem startsH2_examples (topic title : String) :
    startsH2 (generate_examples_section topic title).data = true := by
  simp only [generate_examples_section, String.append_assoc]
  exact startsH2_prefix _

theorem startsH2_advanced (topic title : String) :
    startsH2 (generate_advanced_section topic title).data = true := by
  simp only [generate_advanced_section, String.append_assoc]
  exact startsH2_prefix _

theorem startsH2_performance (topic title : String) :
    startsH2 (generate_performance_section topic title).data = true := by
  simp only [generate_performance_section, String.append_assoc]
  exact startsH2_prefix _

theorem startsH2_generic (topic title description audience : String)
    (kws : List String) :
    startsH2 (generate_generic_section topic title description audience kws).data = true := by
  simp only [generate_generic_section, String.append_assoc]
  exact startsH2_prefix _

/-- The dispatched content of `_generate_section_content`. -/
theorem sectionContent_content (sec : OutlineSection) (topic audience : String)
    (kws : List String) :
    (generate_section_content sec topic audience kws).content =
      (if classify_section_type sec.title = "core_concepts" then
        generate_core_concepts_section topic sec.title audience kws
      else if classify_section_type sec.title = "implementation" then
        generate_implementation_section topic sec.title
      else if classify_section_type sec.title = "best_practices" then
        generate_best_practices_section topic sec.title
      else if classify_section_type sec.title = "examples" then
        generate_examples_section topic sec.title
      else if classify_section_type sec.title = "advanced_techniques" then
        generate_advanced_section topic sec.title
      else if classify_section_type sec.title = "performance" then
        generate_performance_section topic sec.title
      else
        generate_generic_section topic sec.title sec.description audience kws) := rfl

/-- Whatever the classification, a generated section's content begins
with a level-2 heading at offset zero. -/
theorem sectionContent_startsH2 (sec : OutlineSection) (topic audience : String)
    (kws : List String) :
    startsH2 (generate_section_content sec topic audience kws).content.data = true := by
  rw [sectionContent_content]
  split
  · exact startsH2_core _ _ _ _
  split
  · exact startsH2_impl _ _
  split
  · exact startsH2_best _ _
  split
  · exact startsH2_examples _ _
  split
  · exact startsH2_advanced _ _
  split
  · exact startsH2_performance _ _
  · exact startsH2_generic _ _ _ _ _

/-- Whatever the classification, a generated section's fence count is
even, provided the interpolated strings are fence-free. -/
theorem sectionContent_parity (sec : OutlineSection) (topic audience : String)
    (kws : List String) (hT : cleanS topic) (hTi : cleanS sec.title)
    (hD : cleanS sec.description) (hA : cleanS audience)
    (hK : ∀ s ∈ kws, cleanS s) (rest : List Char) :
    ∃ k, countTriple ((generate_section_content sec topic audience kws).content.data ++ rest) =
      2 * k + countTriple rest := by
  have hJ : cleanS (joinComma (kws.take 3)) :=
    joinComma_clean _ (take_clean 3 hK)
  rw [sectionContent_content]
  split
  · exact ⟨0, by rw [coreSection_count topic sec.title audience kws hT hTi hA hJ rest]; omega⟩
  split
  · exact ⟨5, by rw [implSection_count topic sec.title hT hTi rest]⟩
  split
  · exact ⟨0, by rw [bestSection_count topic sec.title hT hTi rest]; omega⟩
  split
  · exact ⟨3, by rw [examplesSection_count topic sec.title hT hTi rest]⟩
  split
  · exact ⟨3, by rw [advancedSection_count topic sec.title hT hTi rest]⟩
  split
  · exact ⟨3, by rw [performanceSection_count topic sec.title hT hTi rest]⟩
  · exact ⟨0, by
      rw [genericSection_count topic sec.title sec.description audience kws hT hTi hD hA hJ rest]
      omega⟩





/-! ## Assembly lemmas for the combined blog content -/

theorem stAfter_nl2 (st : Bool) : stAfter ("\n\n".data) st = true := by
  cases st <;> decide

theorem stAfter_nl2L (st : Bool) : stAfter ['\n', '\n'] st = true := by
  cases st <;> decide

/-- The references block of `_combine_content`. -/
def refsBlock : String :=
  "## References and Further Reading\n\n" ++
  "- [Official Documentation](https://example.com/docs)\n" ++
  "- [Community Resources](https://example.com/community)\n" ++
  "- [Best Practices Guide](https://example.com/best-practices)\n" ++
  "- [Advanced Tutorials](https://example.com/tutorials)\n\n"

theorem combine_regroup (title intro : String) (secs : List GeneratedSection)
    (concl : String) :
    combine_content title intro secs concl =
      ("# " ++ title ++ "\n\n" ++ (intro ++ "\n\n")) ++
        (strConcat (secs.map (fun sec => sec.content ++ "\n\n")) ++
          (("## Conclusion\n\n" ++ concl ++ "\n\n") ++ refsBlock)) := by
  simp [combine_content, refsBlock, String.append_assoc, -String.reduceAppend]

/-- Each generated-section chunk of the body contributes one line-start
`## ` match, and the scan is back at a line start after the chunk. -/
theorem countH2_body (secs : List GeneratedSection) (rest : List Char)
    (hsecs : ∀ g ∈ secs, startsH2 g.content.data = true) :
    secs.length + countH2From true rest ≤
      countH2From true
        ((strConcat (secs.map (fun sec => sec.content ++ "\n\n"))).data ++ rest) := by
  induction secs with
  | nil => simp [strConcat]
  | cons g gs ih =>
    have hgs : ∀ x ∈ gs, startsH2 x.content.data = true :=
      fun x hx => hsecs x (List.mem_cons_of_mem _ hx)
    obtain ⟨tl, htl⟩ := startsH2_exists (hsecs g (List.mem_cons_self g gs))
    simp only [List.map_cons, strConcat, String.data_append, htl, List.length_cons,
      List.cons_append, List.append_assoc]
    rw [countH2From_starts]
    have hst : stAfter ('#' :: ' ' :: (tl ++ "\n\n".data)) false = true := by
      rw [stAfter_cons, stAfter_cons, stAfter_append, stAfter_nl2]
    have hb : gs.length + countH2From true rest ≤
        countH2From (stAfter ('#' :: ' ' :: (tl ++ "\n\n".data)) false)
          ((strConcat (gs.map (fun sec => sec.content ++ "\n\n"))).data ++ rest) := by
      rw [hst]
      exact ih hgs
    have hskip := countH2_skip false ('#' :: ' ' :: (tl ++ "\n\n".data))
      ((strConcat (gs.map (fun sec => sec.content ++ "\n\n"))).data ++ rest) _ hb
    simp only [List.cons_append, List.append_assoc] at hskip
    omega

/-- The body of the combined content yields at least one `^## ` match per
generated section. -/
theorem combine_mainSections_ge (title intro : String)
    (secs : List GeneratedSection) (concl : String)
    (hsecs : ∀ g ∈ secs, startsH2 g.content.data = true) :
    secs.length ≤ mainSections (combine_content title intro secs concl) := by
  rw [combine_regroup]
  unfold mainSections
  rw [String.data_append]
  refine countH2_skip true _ _ _ ?_
  have hP : stAfter ("# " ++ title ++ "\n\n" ++ (intro ++ "\n\n")).data true = true := by
    simp only [String.data_append, stAfter_append]
    exact stAfter_nl2L _
  rw [hP, String.data_append]
  exact le_trans (Nat.le_add_right _ _)
    (countH2_body secs (("## Conclusion\n\n" ++ concl ++ "\n\n") ++ refsBlock).data hsecs)

theorem getLast?_append_nl {b : List Char} (a : List Char)
    (hb : b.getLast? = some '\n') :
    (a ++ b).getLast? = some '\n' := by
  rw [List.getLast?_append, hb]
  rfl

/-- The references block alone matches the markdown-link pattern four
times. -/
theorem refsBlock_links : countLinks refsBlock.data = 4 := by decide

/-- The combined content always carries at least the four reference
links. -/
theorem combine_links_ge (title intro : String) (secs : List GeneratedSection)
    (concl : String) :
    4 ≤ externalLinks (combine_content title intro secs concl) := by
  have hre : combine_content title intro secs concl =
      ("# " ++ title ++ "\n\n" ++ (intro ++ "\n\n") ++
        strConcat (secs.map (fun sec => sec.content ++ "\n\n")) ++
        ("## Conclusion\n\n" ++ concl) ++ "\n\n") ++ refsBlock := by
    simp [combine_content, refsBlock, String.append_assoc, -String.reduceAppend]
  rw [hre]
  unfold externalLinks
  rw [String.data_append]
  have hlast : ("# " ++ title ++ "\n\n" ++ (intro ++ "\n\n") ++
      strConcat (secs.map (fun sec => sec.content ++ "\n\n")) ++
      ("## Conclusion\n\n" ++ concl) ++ "\n\n").data.getLast? = some '\n' := by
    simp only [String.data_append]
    exact getLast?_append_nl _ (by decide)
  have hmono := countLinks_append_ge _ refsBlock.data hlast
  exact le_trans (le_of_eq refsBlock_links.symm) hmono

/-- Fence parity of the section body: the body's fence count is even in
front of any continuation, provided every section contributes an even
count. -/
theorem body_parity (secs : List GeneratedSection) (rest : List Char)
    (hsecs : ∀ g ∈ secs, ∀ r, ∃ k,
      countTriple (g.content.data ++ r) = 2 * k + countTriple r) :
    ∃ k, countTriple
        ((strConcat (secs.map (fun sec => sec.content ++ "\n\n"))).data ++ rest) =
      2 * k + countTriple rest := by
  induction secs with
  | nil => exact ⟨0, by simp [strConcat]⟩
  | cons g gs ih =>
    obtain ⟨k1, hk1⟩ := ih (fun x hx r => hsecs x (List.mem_cons_of_mem _ hx) r)
    obtain ⟨k2, hk2⟩ := hsecs g (List.mem_cons_self g gs)
      (['\n', '\n'] ++ ((strConcat (gs.map (fun sec => sec.content ++ "\n\n"))).data ++ rest))
    refine ⟨k2 + k1, ?_⟩
    have hnl : countTriple ((['\n', '\n'] : List Char) ++
        ((strConcat (gs.map (fun sec => sec.content ++ "\n\n"))).data ++ rest)) =
        countTriple ((strConcat (gs.map (fun sec => sec.content ++ "\n\n"))).data ++ rest) := by
      rw [countTriple_append_left _ (by decide : endsOk ['\n', '\n'] = true)]
      have h0 : countTriple ['\n', '\n'] = 0 := by decide
      omega
    simp only [List.map_cons, strConcat, String.data_append, List.append_assoc]
    rw [hk2, hnl, hk1]
    omega

/-- The combined content as one right-nested character list. -/
theorem combine_data (title intro : String) (secs : List GeneratedSection)
    (concl : String) :
    (combine_content title intro secs concl).data =
      "# ".data ++ (title.data ++ ("\n\n".data ++ (intro.data ++ ("\n\n".data ++
        ((strConcat (secs.map (fun sec => sec.content ++ "\n\n"))).data ++
          ("## Conclusion\n\n".data ++ (concl.data ++
            ("\n\n".data ++ refsBlock.data)))))))) := by
  simp [combine_content, refsBlock, String.data_append, List.append_assoc,
    -String.reduceAppend]

/-- Fence parity of the whole combined content: with a clean title,
introduction and conclusion and even-count sections, the total fence count
is even. -/
theorem combine_parity (title intro concl : String)
    (secs : List GeneratedSection)
    (hti : cleanS title) (hin : cleanS intro) (hco : cleanS concl)
    (hsecs : ∀ g ∈ secs, ∀ r, ∃ k,
      countTriple (g.content.data ++ r) = 2 * k + countTriple r) :
    ∃ k, countTriple (combine_content title intro secs concl).data = 2 * k := by
  obtain ⟨k, hk⟩ := body_parity secs
    ("## Conclusion\n\n".data ++ (concl.data ++ ("\n\n".data ++ refsBlock.data))) hsecs
  refine ⟨k, ?_⟩
  rw [combine_data]
  rw [countTriple_append_left _ (by decide : endsOk ("# ".data) = true),
    countTriple_append_right _ (headOk_append _ (by decide : headOk ("\n\n".data) = true)),
    countTriple_append_left _ (by decide : endsOk ("\n\n".data) = true),
    countTriple_append_right _ (headOk_append _ (by decide : headOk ("\n\n".data) = true)),
    countTriple_append_left _ (by decide : endsOk ("\n\n".data) = true),
    hk,
    countTriple_append_left _ (by decide : endsOk ("## Conclusion\n\n".data) = true),
    countTriple_append_right _ (headOk_append _ (by decide : headOk ("\n\n".data) = true)),
    countTriple_append_left _ (by decide : endsOk ("\n\n".data) = true)]
  have h1 : countTriple ("# ".data) = 0 := by decide
  have h2 : countTriple ("\n\n".data) = 0 := by decide
  have h3 : countTriple ("## Conclusion\n\n".data) = 0 := by decide
  have h4 : countTriple refsBlock.data = 0 := by decide
  have h5 : countTriple title.data = 0 := hti
  have h6 : countTriple intro.data = 0 := hin
  have h7 : countTriple concl.data = 0 := hco
  omega

/-- Content field of the generated blog post, written out. -/
theorem blogPost_content (outline : Outline) (r : Rand) (now : String) :
    (generate_complete_blog_post outline r now).content =
      combine_content
        (generate_title outline.topic outline.keywords outline.target_audience
          r.titleChoice)
        (generate_introduction outline.topic outline.target_audience
          outline.keywords r.introChoice r.hookChoice)
        ((outline.sections.filter (fun sec =>
          !(pyLower sec.title == "introduction" || pyLower sec.title == "conclusion"))).map
          (fun sec => generate_section_content sec outline.topic
            outline.target_audience outline.keywords))
        (generate_conclusion outline.topic outline.target_audience
          outline.keywords r.conclChoice r.ctaChoice) := rfl

theorem vcs_main (c : String) :
    (validate_content_structure c).main_sections = mainSections c := rfl

theorem vcs_links (c : String) :
    (validate_content_structure c).external_links = externalLinks c := rfl

theorem vcs_errors (c : String) :
    (validate_content_structure c).errors =
      (if mainSections c < 3 then
        ["Insufficient main sections: " ++ toString (mainSections c) ++
          " (minimum 3)"] else []) ++
      (if countTriple c.data % 2 ≠ 0 then ["Unclosed code block detected"] else []) :=
  rfl

theorem vcs_warnings (c : String) :
    (validate_content_structure c).warnings =
      if externalLinks c < 3 then
        ["Few external links: " ++ toString (externalLinks c) ++
          " (recommended minimum 3)"] else [] :=
  rfl

theorem vcs_valid (c : String) :
    (validate_content_structure c).valid =
      ((validate_content_structure c).errors.length == 0) := rfl

/-! ## Substring tests as infixes -/

theorem isSub_infix_iff {n h : List Char} : isSub n h = true ↔ n <:+: h := by
  induction h with
  | nil => simp [isSub, List.isEmpty_iff]
  | cons c cs ih => simp [isSub, List.infix_cons_iff, ih, List.isPrefixOf_iff_prefix]

theorem isSub_trans {a b c : List Char} (h1 : isSub a b = true)
    (h2 : isSub b c = true) : isSub a c = true := by
  rw [isSub_infix_iff] at h1 h2 ⊢
  exact h1.trans h2

/-! ## The valid flag of each validator restates emptiness of its error
list -/

theorem validate_title_valid_def (t : String) :
    (validate_title t).valid = ((validate_title t).errors.length == 0) := rfl

theorem validate_introduction_valid_def (t : String) :
    (validate_introduction t).valid =
      ((validate_introduction t).errors.length == 0) := rfl

theorem validate_conclusion_valid_def (t : String) :
    (validate_conclusion t).valid =
      ((validate_conclusion t).errors.length == 0) := rfl

/-! ## Concrete inputs used by witnesses and counterexamples -/

/-- A small outline with three body sections. -/
def c1Outline : Outline :=
  ⟨"X", "devs", [], [],
    [⟨"Alpha", "d", 100⟩, ⟨"Beta", "d", 100⟩, ⟨"Gamma", "d", 100⟩], 300, ""⟩

/-- `{outline with sections, total}` as recomputed by the tool after a
section-list adjustment. -/
def adjustOutline (outline : Outline) (adjusted : List OutlineSection) : Outline :=
  { outline with
    sections := adjusted,
    estimated_total_words := (adjusted.map (·.estimated_words)).sum }

/-- The outline produced for desired length "short" on a fixed input. -/
def c4Short : Outline :=
  { generate_blog_outline "X" "devs" ["a", "b"] "now" with
    sections := (generate_blog_outline "X" "devs" ["a", "b"] "now").sections.take 4,
    estimated_total_words :=
      (((generate_blog_outline "X" "devs" ["a", "b"] "now").sections.take 4).map
        (·.estimated_words)).sum }

/-- An outline whose interpolated strings are all fence-free. -/
def c10Outline : Outline :=
  ⟨"Rust", "developers", ["safety"], [], [⟨"Core Ideas", "d", 100⟩], 100, ""⟩

/-- An outline with fence-free topic and section fields but a keyword that
is itself a triple backquote. -/
def c10BadOutline : Outline :=
  ⟨"X", "intermediate", [String.mk [bq, bq, bq]], [], [⟨"Zzz", "d", 100⟩], 100, ""⟩

/-! ## The claims -/

/-- C1: on every outline with at least three sections whose titles,
compared case-insensitively, are neither "introduction" nor "conclusion",
and for every random template choice, the generated content passes
validate_content_structure with at least 3 main sections and at least 4
external links, so the section-count check adds no error and the
external-link check adds no warning. -/
theorem c1_synthesized_content_self_validates (outline : Outline) (r : Rand)
    (now : String)
    (h3 : 3 ≤ (outline.sections.filter (fun sec =>
      !(pyLower sec.title == "introduction" ||
        pyLower sec.title == "conclusion"))).length) :
    3 ≤ (validate_content_structure
        (generate_complete_blog_post outline r now).content).main_sections ∧
    4 ≤ (validate_content_structure
        (generate_complete_blog_post outline r now).content).external_links ∧
    (validate_content_structure
        (generate_complete_blog_post outline r now).content).warnings = [] ∧
    ((validate_content_structure
        (generate_complete_blog_post outline r now).content).errors = [] ∨
      (validate_content_structure
        (generate_complete_blog_post outline r now).content).errors =
        ["Unclosed code block detected"]) := by
  have hcont := blogPost_content outline r now
  have hsecsH2 : ∀ g ∈ (outline.sections.filter (fun sec =>
      !(pyLower sec.title == "introduction" ||
        pyLower sec.title == "conclusion"))).map
      (fun sec => generate_section_content sec outline.topic
        outline.target_audience outline.keywords),
      startsH2 g.content.data = true := by
    intro g hg
    obtain ⟨o, ho, rfl⟩ := List.mem_map.mp hg
    exact sectionContent_startsH2 o _ _ _
  have hlen : 3 ≤ ((outline.sections.filter (fun sec =>
      !(pyLower sec.title == "introduction" ||
        pyLower sec.title == "conclusion"))).map
      (fun sec => generate_section_content sec outline.topic
        outline.target_audience outline.keywords)).length := by
    rw [List.length_map]
    exact h3
  have hmain : 3 ≤ mainSections (generate_complete_blog_post outline r now).content := by
    rw [hcont]
    exact le_trans hlen (combine_mainSections_ge _ _ _ _ hsecsH2)
  have hlinks : 4 ≤ externalLinks (generate_complete_blog_post outline r now).content := by
    rw [hcont]
    exact combine_links_ge _ _ _ _
  refine ⟨?_, ?_, ?_, ?_⟩
  · rw [vcs_main]
    exact hmain
  · rw [vcs_links]
    exact hlinks
  · rw [vcs_warnings, if_neg (by omega)]
  · rw [vcs_errors, if_neg (by omega)]
    simp only [List.nil_append]
    split
    · exact Or.inr rfl
    · exact Or.inl rfl

theorem c1_witness :
    3 ≤ (c1Outline.sections.filter (fun sec =>
      !(pyLower sec.title == "introduction" ||
        pyLower sec.title == "conclusion"))).length ∧
    (3 ≤ (validate_content_structure
        (generate_complete_blog_post c1Outline ⟨0, 0, 0, 0, 0⟩ "").content).main_sections ∧
     4 ≤ (validate_content_structure
        (generate_complete_blog_post c1Outline ⟨0, 0, 0, 0, 0⟩ "").content).external_links ∧
     (validate_content_structure
        (generate_complete_blog_post c1Outline ⟨0, 0, 0, 0, 0⟩ "").content).warnings = [] ∧
     ((validate_content_structure
        (generate_complete_blog_post c1Outline ⟨0, 0, 0, 0, 0⟩ "").content).errors = [] ∨
       (validate_content_structure
        (generate_complete_blog_post c1Outline ⟨0, 0, 0, 0, 0⟩ "").content).errors =
         ["Unclosed code block detected"])) :=
  ⟨by decide,
    c1_synthesized_content_self_validates c1Outline ⟨0, 0, 0, 0, 0⟩ "" (by decide)⟩

/-- C2: validate_blog_post skips a check exactly when the field key is
absent; on the empty input it reports overall_valid with zero errors and
no check entries, while a present empty title runs the title check, which
fails with the too-short error. -/
theorem c2_missing_fields_skipped :
    validate_blog_post ⟨none, none, none, none⟩ =
      { overall_valid := true, title_check := none, introduction_check := none,
        conclusion_check := none, structure_check := none,
        total_errors := 0, total_warnings := 0 } ∧
    (validate_blog_post ⟨some "", none, none, none⟩).overall_valid = false ∧
    (validate_blog_post ⟨some "", none, none, none⟩).title_check =
      some { valid := false,
             errors := ["Title too short: 0 characters (minimum 40)"],
             warnings := ["Title should ideally pose a question or clearly state the problem/solution"],
             length := 0 } ∧
    (validate_blog_post ⟨some "", none, none, none⟩).total_errors = 1 := by
  decide

/-- C3: the outline tool rejects an empty (hence also a missing, since the
handler defaults it to empty) topic with the required-topic error, for
every choice of the remaining arguments. -/
theorem c3_empty_topic_rejected (target_audience : String)
    (keywords : List String) (desired_length now : String) :
    generate_blog_outline_tool "" target_audience keywords desired_length now =
      Except.error "Error: Topic is required for blog outline generation" := rfl

/-- C4: with a non-empty topic the tool never errors; desired length
"short" yields exactly 4 sections, "long" yields exactly 8 with Advanced
Techniques (500 words) and Performance Considerations (300 words) appended
after the 6 base sections, and in every case the returned total equals the
sum of the per-section estimates. -/
theorem c4_length_adjustment (topic target_audience : String)
    (keywords : List String) (now : String) (h : topic ≠ "") :
    (∀ o, generate_blog_outline_tool topic target_audience keywords "short" now =
        Except.ok o →
      o.sections.length = 4 ∧
      o.estimated_total_words = (o.sections.map OutlineSection.estimated_words).sum) ∧
    (∀ o, generate_blog_outline_tool topic target_audience keywords "long" now =
        Except.ok o →
      o.sections.length = 8 ∧
      o.sections = (generate_blog_outline topic target_audience keywords now).sections ++
        [⟨"Advanced Techniques",
           "Advanced techniques and patterns for " ++ topic, 500⟩,
         ⟨"Performance Considerations",
           "Performance optimization strategies for " ++ topic, 300⟩] ∧
      o.estimated_total_words = (o.sections.map OutlineSection.estimated_words).sum) ∧
    (∀ dl o, generate_blog_outline_tool topic target_audience keywords dl now =
        Except.ok o →
      o.estimated_total_words = (o.sections.map OutlineSection.estimated_words).sum) ∧
    (∀ dl msg, generate_blog_outline_tool topic target_audience keywords dl now ≠
      Except.error msg) := by
  have hgen : ∀ dl, generate_blog_outline_tool topic target_audience keywords dl now =
      Except.ok (adjustOutline (generate_blog_outline topic target_audience keywords now)
        (if dl = "short" then
          (generate_blog_outline topic target_audience keywords now).sections.take 4
         else if dl = "long" then
          (generate_blog_outline topic target_audience keywords now).sections ++
            longExtraSections topic
         else (generate_blog_outline topic target_audience keywords now).sections)) := by
    intro dl
    unfold generate_blog_outline_tool
    rw [if_neg h]
    rfl
  refine ⟨?_, ?_, ?_, ?_⟩
  · intro o ho
    rw [hgen "short"] at ho
    obtain rfl := Except.ok.inj ho
    exact ⟨rfl, rfl⟩
  · intro o ho
    rw [hgen "long"] at ho
    obtain rfl := Except.ok.inj ho
    exact ⟨rfl, rfl, rfl⟩
  · intro dl o ho
    rw [hgen dl] at ho
    obtain rfl := Except.ok.inj ho
    rfl
  · intro dl msg hcontra
    rw [hgen dl] at hcontra
    exact Except.noConfusion hcontra

theorem c4_witness :
    ("X" : String) ≠ "" ∧
    c4Short.sections.length = 4 ∧
    c4Short.estimated_total_words =
      (c4Short.sections.map OutlineSection.estimated_words).sum :=
  ⟨by decide,
    (c4_length_adjustment "X" "devs" ["a", "b"] "now" (by decide)).1 c4Short rfl⟩

/-- C5: a title is valid exactly when its length lies between 40 and 80
characters; the question/colon heuristic only ever contributes a warning,
so it cannot change the valid flag, which depends on the length alone. -/
theorem c5_title_valid_iff_length (title : String) :
    ((validate_title title).valid = true ↔
      (40 ≤ title.length ∧ title.length ≤ 80)) ∧
    (validate_title title).length = title.length := by
  refine ⟨?_, rfl⟩
  by_cases h1 : title.length < 40
  · simp [validate_title, h1]
  · by_cases h2 : title.length > 80
    · simp [validate_title, h1, h2]
    · simp [validate_title, h1, h2]
      omega

/-- C6 (amended): the classifier scans the lower-cased title for the
keyword sets in priority order core_concepts, implementation,
best_practices, examples, advanced_techniques, performance, first match
winning, with generic on no match; a title containing "implementation
guide" classifies as implementation only when no core_concepts keyword
also occurs, and likewise for "best practice"; "FooBar" is generic, and
"Basic Implementation Guide" classifies as core_concepts (not
implementation) because its "basic" matches the higher-priority
core_concepts set. -/
theorem c6_classifier_priority_amended :
    (∀ title : String,
      (["concept", "fundamental", "basic", "theory"].any
        (fun k => isSub k.data (pyLower title).data)) = false →
      isSub "implementation guide".data (pyLower title).data = true →
      classify_section_type title = "implementation") ∧
    (∀ title : String,
      (["concept", "fundamental", "basic", "theory"].any
        (fun k => isSub k.data (pyLower title).data)) = false →
      (["implementation", "guide", "how to", "step"].any
        (fun k => isSub k.data (pyLower title).data)) = false →
      isSub "best practice".data (pyLower title).data = true →
      classify_section_type title = "best_practices") ∧
    classify_section_type "FooBar" = "generic" ∧
    classify_section_type "Basic Implementation Guide" = "core_concepts" := by
  refine ⟨?_, ?_, by decide, by decide⟩
  · intro title hcore himpl
    have h1 : isSub ("implementation".data) ("implementation guide".data) = true := by
      decide
    have h2 := isSub_trans h1 himpl
    have hany : (["implementation", "guide", "how to", "step"].any
        (fun k => isSub k.data (pyLower title).data)) = true := by
      simp only [List.any_eq_true]
      exact ⟨"implementation", by simp, h2⟩
    simp [classify_section_type, hcore, hany]
  · intro title hcore himpl hbest
    have hany : (["best practice", "tips", "recommendation"].any
        (fun k => isSub k.data (pyLower title).data)) = true := by
      simp only [List.any_eq_true]
      exact ⟨"best practice", by simp, hbest⟩
    simp [classify_section_type, hcore, himpl, hany]

/-- C6 counterexample: "Basic Implementation Guide" contains
"Implementation Guide" yet does not classify as implementation. -/
theorem c6_counterexample :
    ¬ (classify_section_type "Basic Implementation Guide" = "implementation") := by
  decide

theorem c6_witness :
    (["concept", "fundamental", "basic", "theory"].any
      (fun k => isSub k.data (pyLower "Implementation Guide").data)) = false ∧
    isSub "implementation guide".data (pyLower "Implementation Guide").data = true ∧
    classify_section_type "Implementation Guide" = "implementation" :=
  ⟨by decide, by decide,
    c6_classifier_priority_amended.1 "Implementation Guide" (by decide) (by decide)⟩

/-- C7: on content with an odd number of triple-backquote markers,
validate_content_structure reports valid = false and its error list
contains the unclosed-code-block error. -/
theorem c7_odd_fences_error (content : String)
    (h : countTriple content.data % 2 = 1) :
    (validate_content_structure content).valid = false ∧
    "Unclosed code block detected" ∈ (validate_content_structure content).errors := by
  constructor
  · rw [vcs_valid, vcs_errors,
      if_pos (by omega : countTriple content.data % 2 ≠ 0)]
    split <;> rfl
  · rw [vcs_errors, if_pos (by omega : countTriple content.data % 2 ≠ 0)]
    simp

theorem c7_witness :
    countTriple ("```" : String).data % 2 = 1 ∧
    ((validate_content_structure "```").valid = false ∧
     "Unclosed code block detected" ∈ (validate_content_structure "```").errors) :=
  ⟨by decide, c7_odd_fences_error "```" (by decide)⟩

/-- C8: the embedded validate_blog_post is a pure function of its input;
the call leaves the input unchanged and the report is exactly the value of
that function, so repeated calls on the same input return identical
reports. -/
theorem c8_validate_pure (post : BlogPostInput) :
    validate_blog_post_call post = (validate_blog_post post, post) ∧
    (validate_blog_post_call post).2 = post :=
  ⟨rfl, rfl⟩

/-- C9: every report satisfies the internal consistency invariant:
total_errors and total_warnings are the sums over the present checks, and
overall_valid holds exactly when total_errors is zero. -/
theorem c9_report_invariant (post : BlogPostInput) :
    (validate_blog_post post).total_errors =
      optErrs ((validate_blog_post post).title_check.map TitleCheck.toCheck) +
      optErrs ((validate_blog_post post).introduction_check.map WordCheck.toCheck) +
      optErrs ((validate_blog_post post).conclusion_check.map WordCheck.toCheck) +
      optErrs ((validate_blog_post post).structure_check.map StructCheck.toCheck) ∧
    (validate_blog_post post).total_warnings =
      optWarns ((validate_blog_post post).title_check.map TitleCheck.toCheck) +
      optWarns ((validate_blog_post post).introduction_check.map WordCheck.toCheck) +
      optWarns ((validate_blog_post post).conclusion_check.map WordCheck.toCheck) +
      optWarns ((validate_blog_post post).structure_check.map StructCheck.toCheck) ∧
    ((validate_blog_post post).overall_valid = true ↔
      (validate_blog_post post).total_errors = 0) := by
  refine ⟨rfl, rfl, ?_⟩
  obtain ⟨t, i, c, s⟩ := post
  cases t <;> cases i <;> cases c <;> cases s <;>
    simp [validate_blog_post, optValid, optErrs,
      validate_title_valid_def, validate_introduction_valid_def,
      validate_conclusion_valid_def, vcs_valid]

/-- C10 (amended): when the topic, target audience, every keyword and
every section title and description of the outline are free of triple
backquotes, the assembled content has an even fence count, so the
unclosed-code-block error is unreachable on synthesized content.  (The
original claim, which left keywords and audience unconstrained, is false:
see the counterexample.) -/
theorem c10_even_fences_amended (outline : Outline) (r : Rand) (now : String)
    (hT : cleanS outline.topic) (hA : cleanS outline.target_audience)
    (hK : ∀ s ∈ outline.keywords, cleanS s)
    (hsec : ∀ sec ∈ outline.sections, cleanS sec.title ∧ cleanS sec.description) :
    countTriple (generate_complete_blog_post outline r now).content.data % 2 = 0 ∧
    "Unclosed code block detected" ∉
      (validate_content_structure
        (generate_complete_blog_post outline r now).content).errors := by
  have hcont := blogPost_content outline r now
  have hsecsP : ∀ g ∈ (outline.sections.filter (fun sec =>
      !(pyLower sec.title == "introduction" ||
        pyLower sec.title == "conclusion"))).map
      (fun sec => generate_section_content sec outline.topic
        outline.target_audience outline.keywords),
      ∀ r2, ∃ k, countTriple (g.content.data ++ r2) = 2 * k + countTriple r2 := by
    intro g hg r2
    obtain ⟨o, ho, rfl⟩ := List.mem_map.mp hg
    have ho2 := hsec o (List.mem_of_mem_filter ho)
    exact sectionContent_parity o _ _ _ hT ho2.1 ho2.2 hA hK r2
  obtain ⟨k, hk⟩ := combine_parity
    (generate_title outline.topic outline.keywords outline.target_audience
      r.titleChoice)
    (generate_introduction outline.topic outline.target_audience
      outline.keywords r.introChoice r.hookChoice)
    (generate_conclusion outline.topic outline.target_audience
      outline.keywords r.conclChoice r.ctaChoice)
    _
    (generate_title_clean _ _ _ _ hT hK hA)
    (generate_introduction_clean _ _ _ _ _ hT hK)
    (generate_conclusion_clean _ _ _ _ _ hT hK)
    hsecsP
  have hpar : countTriple (generate_complete_blog_post outline r now).content.data % 2 = 0 := by
    rw [hcont, hk]
    omega
  refine ⟨hpar, ?_⟩
  intro hmem
  rw [vcs_errors] at hmem
  rcases List.mem_append.mp hmem with hm | hm
  · have hne : ∀ n : Nat,
        ("Insufficient main sections: " ++ toString n ++ " (minimum 3)") ≠
          "Unclosed code block detected" := by
      intro n hcontra
      have h2 := congrArg String.length hcontra
      rw [String.length_append, String.length_append] at h2
      have e1 : ("Insufficient main sections: " : String).length = 28 := rfl
      have e2 : (" (minimum 3)" : String).length = 12 := rfl
      have e3 : ("Unclosed code block detected" : String).length = 28 := rfl
      omega
    split at hm
    · rw [List.mem_singleton] at hm
      exact hne _ hm.symm
    · simp at hm
  · rw [if_neg (by omega :
      ¬ countTriple (generate_complete_blog_post outline r now).content.data % 2 ≠ 0)] at hm
    simp at hm

/-- C10 counterexample: with fence-free topic, section titles and
descriptions but a keyword consisting of three backquotes, the assembled
content has an odd fence count, so the original unconditional claim
fails. -/
theorem c10_counterexample :
    cleanS c10BadOutline.topic ∧ cleanS ("Zzz" : String) ∧ cleanS ("d" : String) ∧
    countTriple
      (generate_complete_blog_post c10BadOutline ⟨2, 0, 0, 0, 0⟩ "").content.data % 2 = 1 := by
  refine ⟨by decide, by decide, by decide, ?_⟩
  decide

theorem c10_witness :
    cleanS c10Outline.topic ∧ cleanS c10Outline.target_audience ∧
    (countTriple
        (generate_complete_blog_post c10Outline ⟨0, 0, 0, 0, 0⟩ "").content.data % 2 = 0 ∧
      "Unclosed code block detected" ∉
        (validate_content_structure
          (generate_complete_blog_post c10Outline ⟨0, 0, 0, 0, 0⟩ "").content).errors) :=
  ⟨by decide, by decide,
    c10_even_fences_amended c10Outline ⟨0, 0, 0, 0, 0⟩ "" (by decide) (by decide)
      (by decide) (by decide)⟩

end BlogServer
